import Mathlib

/-! # Redis datasource backend: reply-to-frame translation

A shallow embedding of `pkg/redis-graph.go` and `pkg/query.go`.

* Go values of type `interface{}` coming back from the store client are the
  inductive type `Reply`.
* A Go panic (failed type assertion, index out of range) is the `error` branch
  of `Except Fault`.
* Calls on the store client and log lines are effects; they are recorded in
  explicit lists returned next to the value.
* `int64` values are `Int`; no arithmetic that could overflow is performed on
  them by the embedded code (they are only formatted, or divided by a constant).
* A Go `string` is an immutable byte sequence and the conversion `string(b)` of
  a `[]byte` keeps the bytes unchanged; both are carried by `String` here and
  the conversion is the identity.
-/

set_option autoImplicit false

deriving instance DecidableEq for Except

namespace RedisDatasource

/-! ## Data model -/

/-- Value of Go type `interface{}` as the store client delivers it. -/
inductive Reply where
  /-- The nil interface value. -/
  | null : Reply
  /-- An `int64`. -/
  | int64 (n : Int) : Reply
  /-- A `[]byte`, held as the text of its bytes. -/
  | bytes (b : String) : Reply
  /-- A Go `string`. -/
  | str (s : String) : Reply
  /-- A `[]interface{}`. -/
  | arr (xs : List Reply) : Reply

/-- Runtime faults (Go panics) the embedded code can raise. -/
inductive Fault where
  /-- A type assertion `x.(T)` on a value whose dynamic type is not `T`. -/
  | typeAssertion : Fault
  /-- An index expression `xs[i]` with `i` outside the slice. -/
  | indexOutOfRange : Fault
  /-- A row whose length differs from the number of columns. -/
  | arityMismatch : Fault
  /-- A row value whose type differs from the type of its column. -/
  | typeMismatch : Fault
  deriving DecidableEq, Repr

/-- Go `error` values, as far as `errors.As` can tell them apart. -/
inductive GoError where
  /-- An error that wraps nothing. -/
  | plain (msg : String) : GoError
  /-- An error whose `Unwrap` method returns `inner`. -/
  | wrap (msg : String) (inner : GoError) : GoError
  /-- The store-protocol error `resp2.Error{E: e}`. -/
  | resp2 (e : GoError) : GoError
  deriving DecidableEq, Repr

/-- Represents node. -/
structure nodeEntry where
  id : String
  title : String
  subTitle : String
  mainStat : String
  arc : Int
  deriving DecidableEq, Repr

/-- Represents edge. -/
structure edgeEntry where
  id : String
  source : String
  target : String
  mainStat : String
  deriving DecidableEq, Repr

/-- IEEE-754 double, carried by its bit pattern. -/
structure float64 where
  bits : Nat
  deriving DecidableEq, Repr

/-- Value of `time.Time`: seconds and nanoseconds since the Unix epoch. -/
structure Time where
  sec : Int
  nsec : Int
  deriving DecidableEq, Repr

/-- One value of a frame row. -/
inductive Cell where
  | string (s : String) : Cell
  | int64 (n : Int) : Cell
  | float64 (x : float64) : Cell
  | time (t : Time) : Cell
  deriving DecidableEq, Repr

/-- Typed storage of one column. -/
inductive Vector where
  | strings (v : List String) : Vector
  | int64s (v : List Int) : Vector
  | float64s (v : List float64) : Vector
  | times (v : List Time) : Vector
  deriving DecidableEq, Repr

/-- Display settings of a column (`data.FieldConfig`). -/
structure FieldConfig where
  Unit : String
  deriving DecidableEq, Repr

/-- One named column of a frame (`data.Field`). -/
structure Field where
  Name : String
  Config : Option FieldConfig
  vector : Vector
  deriving DecidableEq, Repr

/-- Frame metadata (`data.FrameMeta`). -/
structure FrameMeta where
  PreferredVisualization : String
  deriving DecidableEq, Repr

/-- Named table of typed columns (`data.Frame`). -/
structure Frame where
  Name : String
  Meta : Option FrameMeta
  Fields : List Field
  deriving DecidableEq, Repr

/-- Response handed back to the host (`backend.DataResponse`). -/
structure DataResponse where
  Frames : List Frame
  Error : Option GoError
  deriving DecidableEq, Repr

/-- Type of the receiver a client call unmarshals the reply into. -/
inductive Rcv where
  /-- Receiver of type `*[]interface{}`. -/
  | anySlice : Rcv
  /-- Receiver of type `*[][]string`. -/
  | stringSlices : Rcv
  /-- Receiver of type `*string`. -/
  | string : Rcv
  deriving DecidableEq, Repr

/-- Lean type of the value a receiver holds after a successful call. -/
def Rcv.type : Rcv → Type
  | Rcv.anySlice => List Reply
  | Rcv.stringSlices => List (List String)
  | Rcv.string => String

/-- The store client interface. A call either fails with an error or fills the
receiver; the answer is a function of the call. -/
structure redisClient where
  RunFlatCmd : (rcv : Rcv) → (cmd : String) → (key : String) → (args : List String) →
    Except GoError rcv.type
  RunCmd : (rcv : Rcv) → (cmd : String) → (args : List String) → Except GoError rcv.type

/-- Record of one call made on the store client. -/
structure Call where
  flat : Bool
  cmd : String
  args : List String
  deriving DecidableEq, Repr

/-- The fields of `queryModel` the embedded code reads. -/
structure queryModel where
  Query : String
  Command : String
  Key : String
  Cypher : String
  deriving DecidableEq, Repr

/-- What a decoding routine leaves behind: its response, or the fault that
interrupted it, and the client calls it made. -/
structure Result where
  out : Except Fault DataResponse
  calls : List Call

/-! ## Library operations -/

/-- Go `strconv.FormatInt(i, base)`: digits of the magnitude, most significant
first, after a `-` when `i` is negative. -/
def FormatInt (i : Int) (base : Nat) : String :=
  match i with
  | Int.ofNat n => String.mk (Nat.toDigits base n)
  | Int.negSucc n => String.mk ('-' :: Nat.toDigits base (n + 1))

/-- Type assertion `x.([]interface{})`. -/
def Reply.asSlice : Reply → Except Fault (List Reply)
  | Reply.arr xs => Except.ok xs
  | _ => Except.error Fault.typeAssertion

/-- Type assertion `x.(int64)`. -/
def Reply.asInt64 : Reply → Except Fault Int
  | Reply.int64 n => Except.ok n
  | _ => Except.error Fault.typeAssertion

/-- Type assertion `x.([]byte)`. -/
def Reply.asBytes : Reply → Except Fault String
  | Reply.bytes b => Except.ok b
  | _ => Except.error Fault.typeAssertion

/-- Index expression `xs[i]`. -/
def index (xs : List Reply) (i : Nat) : Except Fault Reply :=
  match xs[i]? with
  | some x => Except.ok x
  | none => Except.error Fault.indexOutOfRange

/-- Appending one value to a column; the value must have the column type. -/
def Vector.Append : Vector → Cell → Except Fault Vector
  | Vector.strings v, Cell.string s => Except.ok (Vector.strings (v ++ [s]))
  | Vector.int64s v, Cell.int64 n => Except.ok (Vector.int64s (v ++ [n]))
  | Vector.float64s v, Cell.float64 x => Except.ok (Vector.float64s (v ++ [x]))
  | Vector.times v, Cell.time t => Except.ok (Vector.times (v ++ [t]))
  | _, _ => Except.error Fault.typeMismatch

/-- Appending one value to each column, left to right. -/
def appendCells : List Field → List Cell → Except Fault (List Field)
  | [], [] => Except.ok []
  | f :: fs, c :: cs =>
    match f.vector.Append c with
    | Except.error e => Except.error e
    | Except.ok v =>
      match appendCells fs cs with
      | Except.error e => Except.error e
      | Except.ok rest => Except.ok ({ f with vector := v } :: rest)
  | _, _ => Except.error Fault.arityMismatch

/-- Frame operation `AppendRow(vals...)` of the plugin SDK, after the contract of
the frame builder: a row of the wrong length or with a value of the wrong type
is refused. -/
def Frame.AppendRow (f : Frame) (vals : List Cell) : Except Fault Frame :=
  match appendCells f.Fields vals with
  | Except.error e => Except.error e
  | Except.ok fields => Except.ok { f with Fields := fields }

/-- Number of rows of a frame: the length of its first column. -/
def Vector.len : Vector → Nat
  | Vector.strings v => v.length
  | Vector.int64s v => v.length
  | Vector.float64s v => v.length
  | Vector.times v => v.length

/-- Frame operation `Rows()` of the plugin SDK. -/
def Frame.Rows (f : Frame) : Nat :=
  match f.Fields with
  | [] => 0
  | fld :: _ => fld.vector.len

/-- Value of a string of decimal digits, `none` when a character is not a
digit or the string is empty. -/
def decimalValue (cs : List Char) : Option Nat :=
  match cs with
  | [] => none
  | _ => cs.foldl (fun acc c =>
      match acc with
      | none => none
      | some n => if c.isDigit then some (10 * n + (c.toNat - 48)) else none) (some 0)

/-- Largest `uint64`. -/
def maxUint64 : Nat := 2 ^ 64 - 1

/-- What Go `strconv.ParseUint(s, 10, 64)` returns: value 0 with a syntax
error, value `maxUint64` with a range error, or the value read. -/
inductive UintResult where
  | syntaxError : UintResult
  | rangeError : UintResult
  | value (n : Nat) : UintResult
  deriving DecidableEq, Repr

/-- The digit loop of Go `strconv.ParseUint(s, 10, 64)`, `n` being the value
read so far. A character that is not a decimal digit ends the loop with a
syntax error; a digit that would take the value beyond `maxUint64` ends it with
a range error, whatever follows. -/
def parseUintLoop (n : Nat) : List Char → UintResult
  | [] => UintResult.value n
  | c :: cs =>
    if c.isDigit = false then UintResult.syntaxError
    else if n ≥ maxUint64 / 10 + 1 then UintResult.rangeError
    else if 10 * n + (c.toNat - 48) > maxUint64 then UintResult.rangeError
    else parseUintLoop (10 * n + (c.toNat - 48)) cs

/-- Go `strconv.ParseUint(s, 10, 64)`: the empty string is a syntax error. -/
def ParseUint (s : List Char) : UintResult :=
  match s with
  | [] => UintResult.syntaxError
  | _ => parseUintLoop 0 s

/-- The range check of Go `strconv.ParseInt` on the magnitude `un` read by
`ParseUint`: the nearest bound of `int64` when the signed value does not fit. -/
def clampInt64 (neg : Bool) (un : Nat) : Int :=
  if neg = false ∧ un ≥ 2 ^ 63 then 2 ^ 63 - 1
  else if neg = true ∧ un > 2 ^ 63 then - 2 ^ 63
  else if neg = true then - (un : Int) else (un : Int)

/-- Go `strconv.ParseInt(s, 10, 64)` with the error dropped: a leading `+` or
`-` is picked off and the rest goes through `ParseUint`; the value is 0 on a
syntax error and the nearest bound of `int64` when out of range. -/
def ParseInt (s : String) : Int :=
  match s.data with
  | [] => 0
  | c :: rest =>
    let neg : Bool := c == '-'
    let digits := if c = '+' ∨ c = '-' then rest else c :: rest
    match ParseUint digits with
    | UintResult.syntaxError => 0
    | UintResult.rangeError => clampInt64 neg maxUint64
    | UintResult.value un => clampInt64 neg un

/-- Go `time.Unix(sec, 0)`. -/
def Time.Unix (sec : Int) : Time := { sec := sec, nsec := 0 }

/-- Wrap-around of an integer into the range of `int64`. -/
def wrapInt64 (x : Int) : Int := (x + 2 ^ 63) % 2 ^ 64 - 2 ^ 63

/-- Go `t.UnixNano()`. -/
def Time.UnixNano (t : Time) : Int := wrapInt64 (t.sec * 1000000000 + t.nsec)

/-- Index expression `xs[i]` on a `[]string`. -/
def indexString (xs : List String) (i : Nat) : Except Fault String :=
  match xs[i]? with
  | some x => Except.ok x
  | none => Except.error Fault.indexOutOfRange

/-! ## `redis-graph.go` -/

/-- Body of the `len(entryFields) == 3` block of `findAllNodesAndEdges`
(lines 110-133): the node built from the three fields. -/
def nodeOfFields (entryFields : List Reply) : Except Fault nodeEntry := do
  let node : nodeEntry := { id := "", title := "", subTitle := "", mainStat := "", arc := 1 }
  let idArray ← (← index entryFields 0).asSlice
  let node := { node with id := FormatInt (← (← index idArray 1).asInt64) 10 }
  let labelsArray ← (← index entryFields 1).asSlice
  let labels ← (← index labelsArray 1).asSlice
  let node ←
    if labels.length > 0 then do
      let t ← (← index labels 0).asBytes
      pure { node with title := t }
    else pure node
  let propertiesArray ← (← index entryFields 2).asSlice
  let properties ← (← index propertiesArray 1).asSlice
  let node ←
    if properties.length > 0 then do
      let propertyArray ← (← index properties 0).asSlice
      match (← index propertyArray 1) with
      | Reply.bytes propValue => pure { node with mainStat := propValue }
      | Reply.int64 propValue => pure { node with mainStat := FormatInt propValue 10 }
      | _ => pure node
    else pure node
  pure node

/-- Body of the `len(entryFields) == 5` block of `findAllNodesAndEdges`
(lines 139-153): the edge built from the five fields. -/
def edgeOfFields (entryFields : List Reply) : Except Fault edgeEntry := do
  let edge : edgeEntry := { id := "", source := "", target := "", mainStat := "" }
  let idArray ← (← index entryFields 0).asSlice
  let edge := { edge with id := FormatInt (← (← index idArray 1).asInt64) 10 }
  let typeArray ← (← index entryFields 1).asSlice
  let edge := { edge with mainStat := (← (← index typeArray 1).asBytes) }
  let srcArray ← (← index entryFields 2).asSlice
  let edge := { edge with source := FormatInt (← (← index srcArray 1).asInt64) 10 }
  let destArray ← (← index entryFields 3).asSlice
  let edge := { edge with target := FormatInt (← (← index destArray 1).asInt64) 10 }
  pure edge

/-- One iteration of the loop over `entries` in `findAllNodesAndEdges`. -/
def entryStep (acc : List nodeEntry × List edgeEntry) (entry : Reply) :
    Except Fault (List nodeEntry × List edgeEntry) := do
  let entryFields ← entry.asSlice
  let nodes ←
    if entryFields.length = 3 then do
      let node ← nodeOfFields entryFields
      pure (acc.1 ++ [node])
    else pure acc.1
  let edges ←
    if entryFields.length = 5 then do
      let edge ← edgeOfFields entryFields
      pure (acc.2 ++ [edge])
    else pure acc.2
  pure (nodes, edges)

/-- The loop over `entries` in `findAllNodesAndEdges`. -/
def entriesLoop (acc : List nodeEntry × List edgeEntry) :
    List Reply → Except Fault (List nodeEntry × List edgeEntry)
  | [] => Except.ok acc
  | entry :: rest =>
    match entryStep acc entry with
    | Except.error e => Except.error e
    | Except.ok acc1 => entriesLoop acc1 rest

/-- Parse array of entries and find either nodes or relations and create the
corresponding `nodeEntry` or `edgeEntry`. -/
def findAllNodesAndEdges (input : Reply) : Except Fault (List nodeEntry × List edgeEntry) :=
  match input with
  | Reply.arr entries => entriesLoop ([], []) entries
  | _ => Except.ok ([], [])

/-- State of the row loop of `queryGraphQuery`: the two frames under
construction and the map `existingNodes`. -/
structure GraphState where
  frameWithNodes : Frame
  frameWithEdges : Frame
  existingNodes : List (String × Bool)

/-- The loop `for _, node := range nodes` of `queryGraphQuery`: add each
`nodeEntry` only once. -/
def appendNodes (st : GraphState) : List nodeEntry → Except Fault GraphState
  | [] => Except.ok st
  | node :: rest =>
    match st.existingNodes.lookup node.id with
    | some _ => appendNodes st rest
    | none =>
      match st.frameWithNodes.AppendRow [Cell.string node.id, Cell.string node.title,
          Cell.string node.subTitle, Cell.string node.mainStat, Cell.int64 node.arc] with
      | Except.error e => Except.error e
      | Except.ok frame =>
        appendNodes { st with frameWithNodes := frame,
                              existingNodes := (node.id, true) :: st.existingNodes } rest

/-- The loop `for _, edge := range edges` of `queryGraphQuery`. -/
def appendEdges (st : GraphState) : List edgeEntry → Except Fault GraphState
  | [] => Except.ok st
  | edge :: rest =>
    match st.frameWithEdges.AppendRow [Cell.string edge.id, Cell.string edge.source,
        Cell.string edge.target, Cell.string edge.mainStat] with
    | Except.error e => Except.error e
    | Except.ok frame => appendEdges { st with frameWithEdges := frame } rest

/-- The loop `for _, entries := range result[1].([]interface{})` of
`queryGraphQuery`. -/
def rowsLoop (st : GraphState) : List Reply → Except Fault GraphState
  | [] => Except.ok st
  | entries :: rest =>
    match findAllNodesAndEdges entries with
    | Except.error e => Except.error e
    | Except.ok (nodes, edges) =>
      match appendNodes st nodes with
      | Except.error e => Except.error e
      | Except.ok st1 =>
        match appendEdges st1 edges with
        | Except.error e => Except.error e
        | Except.ok st2 => rowsLoop st2 rest

/-- First `resp2.Error` in the chain of an error, as `errors.As` finds it; the
value is its field `E`. -/
def asResp2 : GoError → Option GoError
  | GoError.plain _ => none
  | GoError.wrap _ inner => asResp2 inner
  | GoError.resp2 e => some e

/-- Error handler (`query.go`). The Go `error` argument may be nil. -/
def errorHandler (response : DataResponse) (err : Option GoError) : DataResponse :=
  match err with
  | none => { response with Error := none }
  | some e =>
    match asResp2 e with
    | some redisErrE => { response with Error := some redisErrE }
    | none => { response with Error := some e }

/-- The empty frame for nodes built by `queryGraphQuery` (lines 52-60). -/
def newFrameWithNodes : Frame :=
  { Name := "nodes"
    Meta := some { PreferredVisualization := "nodeGraph" }
    Fields := [{ Name := "id", Config := none, vector := Vector.strings [] },
               { Name := "title", Config := none, vector := Vector.strings [] },
               { Name := "subTitle", Config := none, vector := Vector.strings [] },
               { Name := "mainStat", Config := none, vector := Vector.strings [] },
               { Name := "arc__", Config := none, vector := Vector.int64s [] }] }

/-- The empty frame for edges built by `queryGraphQuery` (lines 63-70). -/
def newFrameWithEdges : Frame :=
  { Name := "edges"
    Meta := some { PreferredVisualization := "nodeGraph" }
    Fields := [{ Name := "id", Config := none, vector := Vector.strings [] },
               { Name := "source", Config := none, vector := Vector.strings [] },
               { Name := "target", Config := none, vector := Vector.strings [] },
               { Name := "mainStat", Config := none, vector := Vector.strings [] }] }

/-- State of `queryGraphQuery` when it enters the row loop: two empty frames
and the empty map `existingNodes` (line 76). -/
def initialState : GraphState :=
  { frameWithNodes := newFrameWithNodes, frameWithEdges := newFrameWithEdges, existingNodes := [] }

/-- What `queryGraphQuery` does with the reply once the client call succeeded
(lines 51-91). -/
def graphFrames (result : List Reply) : Except Fault DataResponse := do
  let rows ← (← index result 1).asSlice
  let st ← rowsLoop initialState rows
  pure { Frames := [st.frameWithNodes, st.frameWithEdges], Error := none }

/-- Executes `GRAPH.QUERY <Graph name> {query}` and turns the reply into the
frames "nodes" and "edges". -/
def queryGraphQuery (qm : queryModel) (client : redisClient) : Result :=
  let response : DataResponse := { Frames := [], Error := none }
  let calls := [{ flat := true, cmd := "GRAPH.QUERY", args := [qm.Key, qm.Cypher] : Call }]
  match client.RunFlatCmd Rcv.anySlice "GRAPH.QUERY" qm.Key [qm.Cypher] with
  | Except.error err => { out := Except.ok (errorHandler response (some err)), calls := calls }
  | Except.ok result => { out := graphFrames result, calls := calls }

/-- The loop `for _, entry := range result` of `queryGraphSlowlog`; `parseFloat`
stands for `strconv.ParseFloat(s, 64)` with the error dropped. -/
def slowlogLoop (parseFloat : String → float64) (frame : Frame) :
    List (List String) → Except Fault Frame
  | [] => Except.ok frame
  | entry :: rest => do
    let timestamp := ParseInt (← indexString entry 0)
    let duration := parseFloat (← indexString entry 3)
    let command ← indexString entry 1
    let text ← indexString entry 2
    let frame1 ← frame.AppendRow [Cell.time (Time.Unix timestamp), Cell.string command,
      Cell.string text, Cell.float64 duration]
    slowlogLoop parseFloat frame1 rest

/-- The empty frame built by `queryGraphSlowlog` (lines 182-190). -/
def newFrameSlowlog : Frame :=
  { Name := "GRAPH.SLOWLOG"
    Meta := none
    Fields := [{ Name := "timestamp", Config := none, vector := Vector.times [] },
               { Name := "command", Config := none, vector := Vector.strings [] },
               { Name := "query", Config := none, vector := Vector.strings [] },
               { Name := "duration", Config := some { Unit := "µs" },
                 vector := Vector.float64s [] }] }

/-- Executes `GRAPH.SLOWLOG <Graph name>` and lists the slowest queries. -/
def queryGraphSlowlog (parseFloat : String → float64) (qm : queryModel) (client : redisClient) :
    Result :=
  let response : DataResponse := { Frames := [], Error := none }
  let calls := [{ flat := true, cmd := "GRAPH.SLOWLOG", args := [qm.Key] : Call }]
  match client.RunFlatCmd Rcv.stringSlices "GRAPH.SLOWLOG" qm.Key [] with
  | Except.error err => { out := Except.ok (errorHandler response (some err)), calls := calls }
  | Except.ok result =>
    { out := (slowlogLoop parseFloat newFrameSlowlog result).map
        (fun frame => { Frames := [frame], Error := none })
      calls := calls }

/-! ## `query.go` -/

/-- Commands with one key parameter and return value; `createFrameValue` is the
frame constructor of the same name, defined outside the embedded files. -/
def queryKeyCommand (createFrameValue : String → String → Frame) (qm : queryModel)
    (client : redisClient) : Result :=
  let response : DataResponse := { Frames := [], Error := none }
  let calls := [{ flat := false, cmd := qm.Command, args := [qm.Key] : Call }]
  match client.RunCmd Rcv.string qm.Command [qm.Key] with
  | Except.error err => { out := Except.ok (errorHandler response (some err)), calls := calls }
  | Except.ok value =>
    { out := Except.ok { response with Frames := response.Frames ++ [createFrameValue qm.Key value] }
      calls := calls }

/-- The request `backend.DataQuery`, as far as `query` reads it. -/
structure DataQuery where
  JSON : String
  From : Time
  To : Time

/-- One line written to the host logger. -/
structure LogEntry where
  level : String
  msg : String
  deriving DecidableEq, Repr

/-- Everything `query` uses that is defined outside the embedded files: the
JSON decoder, the float parser, the frame constructor and the other decoding
routines. -/
structure Externals where
  Unmarshal : String → Except GoError queryModel
  ParseFloat : String → float64
  createFrameValue : String → String → Frame
  queryCustomCommand : queryModel → redisClient → Result
  queryTsGet : queryModel → redisClient → Result
  queryTsInfo : queryModel → redisClient → Result
  queryTsQueryIndex : queryModel → redisClient → Result
  queryTsRange : Int → Int → queryModel → redisClient → Result
  queryTsMRange : Int → Int → queryModel → redisClient → Result
  queryHGetAll : queryModel → redisClient → Result
  queryHGet : queryModel → redisClient → Result
  queryHMGet : queryModel → redisClient → Result
  querySMembers : queryModel → redisClient → Result
  queryInfo : queryModel → redisClient → Result
  queryClientList : queryModel → redisClient → Result
  querySlowlogGet : queryModel → redisClient → Result
  queryXInfoStream : queryModel → redisClient → Result
  queryXRange : queryModel → redisClient → Result
  queryXRevRange : queryModel → redisClient → Result
  queryClusterInfo : queryModel → redisClient → Result
  queryClusterNodes : queryModel → redisClient → Result
  queryFtInfo : queryModel → redisClient → Result
  queryTMScan : queryModel → redisClient → Result
  queryRgPystats : queryModel → redisClient → Result
  queryRgDumpregistrations : queryModel → redisClient → Result
  queryRgPyexecute : queryModel → redisClient → Result

/-- What the host observes of one run of `query`: the response, the calls made
on the store client and the lines logged. -/
structure Outcome where
  response : DataResponse
  calls : List Call
  logs : List LogEntry

/-- The routine `query` selects once the request body is parsed (lines 44-145):
`none` stands for the default branch. -/
def dispatch (ext : Externals) (from_ to_ : Int) (qm : queryModel) (client : redisClient) :
    Option Result :=
  if qm.Query ≠ "" then some (ext.queryCustomCommand qm client)
  else
    match qm.Command with
    | "ts.get" => some (ext.queryTsGet qm client)
    | "ts.info" => some (ext.queryTsInfo qm client)
    | "ts.queryindex" => some (ext.queryTsQueryIndex qm client)
    | "ts.range" => some (ext.queryTsRange from_ to_ qm client)
    | "ts.mrange" => some (ext.queryTsMRange from_ to_ qm client)
    | "hgetall" => some (ext.queryHGetAll qm client)
    | "hget" => some (ext.queryHGet qm client)
    | "hmget" => some (ext.queryHMGet qm client)
    | "smembers" => some (ext.querySMembers qm client)
    | "hkeys" => some (ext.querySMembers qm client)
    | "type" => some (queryKeyCommand ext.createFrameValue qm client)
    | "get" => some (queryKeyCommand ext.createFrameValue qm client)
    | "ttl" => some (queryKeyCommand ext.createFrameValue qm client)
    | "hlen" => some (queryKeyCommand ext.createFrameValue qm client)
    | "xlen" => some (queryKeyCommand ext.createFrameValue qm client)
    | "llen" => some (queryKeyCommand ext.createFrameValue qm client)
    | "scard" => some (queryKeyCommand ext.createFrameValue qm client)
    | "info" => some (ext.queryInfo qm client)
    | "clientList" => some (ext.queryClientList qm client)
    | "slowlogGet" => some (ext.querySlowlogGet qm client)
    | "xinfoStream" => some (ext.queryXInfoStream qm client)
    | "xrange" => some (ext.queryXRange qm client)
    | "xrevrange" => some (ext.queryXRevRange qm client)
    | "clusterInfo" => some (ext.queryClusterInfo qm client)
    | "clusterNodes" => some (ext.queryClusterNodes qm client)
    | "ft.info" => some (ext.queryFtInfo qm client)
    | "tmscan" => some (ext.queryTMScan qm client)
    | "rg.pystats" => some (ext.queryRgPystats qm client)
    | "rg.dumpregistrations" => some (ext.queryRgDumpregistrations qm client)
    | "rg.pyexecute" => some (ext.queryRgPyexecute qm client)
    | "graph.query" => some (queryGraphQuery qm client)
    | "graph.slowlog" => some (queryGraphSlowlog ext.ParseFloat qm client)
    | _ => none

/-- Query commands: parses the request body, runs the selected routine and
recovers from its panic. A recovered panic leaves the zero response, since the
result of `query` is unnamed. -/
def query (ext : Externals) (q : DataQuery) (client : redisClient) : Outcome :=
  let debug : LogEntry := { level := "debug", msg := "QueryData" }
  match ext.Unmarshal q.JSON with
  | Except.error err =>
    { response := { Frames := [], Error := some err }, calls := [], logs := [debug] }
  | Except.ok qm =>
    let from_ := Int.tdiv q.From.UnixNano 1000000
    let to_ := Int.tdiv q.To.UnixNano 1000000
    match dispatch ext from_ to_ qm client with
    | none =>
      { response := { Frames := [], Error := none }, calls := []
        logs := [debug, { level := "error", msg := "Query" }] }
    | some r =>
      match r.out with
      | Except.ok response => { response := response, calls := r.calls, logs := [debug] }
      | Except.error _ =>
        { response := { Frames := [], Error := none }, calls := r.calls
          logs := [debug, { level := "error", msg := "PANIC" }] }

/-! ## Specification-level notions -/

/-- The nodes frame whose rows are the given nodes, in order. -/
def nodesFrameOf (rows : List nodeEntry) : Frame :=
  { Name := "nodes"
    Meta := some { PreferredVisualization := "nodeGraph" }
    Fields := [{ Name := "id", Config := none, vector := Vector.strings (rows.map (fun n => n.id)) },
               { Name := "title", Config := none,
                 vector := Vector.strings (rows.map (fun n => n.title)) },
               { Name := "subTitle", Config := none,
                 vector := Vector.strings (rows.map (fun n => n.subTitle)) },
               { Name := "mainStat", Config := none,
                 vector := Vector.strings (rows.map (fun n => n.mainStat)) },
               { Name := "arc__", Config := none,
                 vector := Vector.int64s (rows.map (fun n => n.arc)) }] }

/-- The edges frame whose rows are the given edges, in order. -/
def edgesFrameOf (rows : List edgeEntry) : Frame :=
  { Name := "edges"
    Meta := some { PreferredVisualization := "nodeGraph" }
    Fields := [{ Name := "id", Config := none, vector := Vector.strings (rows.map (fun e => e.id)) },
               { Name := "source", Config := none,
                 vector := Vector.strings (rows.map (fun e => e.source)) },
               { Name := "target", Config := none,
                 vector := Vector.strings (rows.map (fun e => e.target)) },
               { Name := "mainStat", Config := none,
                 vector := Vector.strings (rows.map (fun e => e.mainStat)) }] }

/-- Keeping only the first occurrence of each id: a node stays exactly when no
node before it in the list has the same id. -/
def firstOccurrences : List nodeEntry → List nodeEntry
  | [] => []
  | n :: rest => n :: (firstOccurrences rest).filter (fun m => decide (m.id ≠ n.id))

/-- The values of the string column called `name`, empty when the frame has no
such column. -/
def Frame.stringColumn (f : Frame) (name : String) : List String :=
  match f.Fields.find? (fun fld => fld.Name == name) with
  | some { vector := Vector.strings v, .. } => v
  | _ => []

/-- Number of fields of an entry, `none` for an entry that is not a sequence. -/
def fieldCount : Reply → Option Nat
  | Reply.arr fields => some fields.length
  | _ => none

/-- Number of entries with exactly `k` fields in a result row; a row that is not
a sequence has no entries. -/
def countRecords (k : Nat) : Reply → Nat
  | Reply.arr entries => entries.countP (fun e => fieldCount e == some k)
  | _ => 0

/-- Loop invariant of `queryGraphQuery`: after the nodes `seen` and the edges
`es` have been met, the nodes frame holds the first occurrences of `seen`, the
edges frame holds `es`, and `existingNodes` has exactly the ids of `seen`. -/
structure Tracks (st : GraphState) (seen : List nodeEntry) (es : List edgeEntry) : Prop where
  nodes : st.frameWithNodes = nodesFrameOf (firstOccurrences seen)
  edges : st.frameWithEdges = edgesFrameOf es
  keys : ∀ i : String, st.existingNodes.lookup i = none ↔ i ∉ seen.map (fun n => n.id)

/-- Results of `findAllNodesAndEdges` on each result row, in row order; the
fault of the first row that faults. -/
def rowParts : List Reply → Except Fault (List (List nodeEntry × List edgeEntry))
  | [] => Except.ok []
  | entries :: rest =>
    match findAllNodesAndEdges entries with
    | Except.error e => Except.error e
    | Except.ok part =>
      match rowParts rest with
      | Except.error e => Except.error e
      | Except.ok parts => Except.ok (part :: parts)

/-- All nodes of the row results, in row order and then within-row order. -/
def allNodes (parts : List (List nodeEntry × List edgeEntry)) : List nodeEntry :=
  (parts.map Prod.fst).flatten

/-- All edges of the row results, in row order and then within-row order. -/
def allEdges (parts : List (List nodeEntry × List edgeEntry)) : List edgeEntry :=
  (parts.map Prod.snd).flatten

/-! ## Sample data -/

/-- A node record in the shape the store sends it. -/
def sampleNode (nodeID : Int) (label name : String) : Reply :=
  Reply.arr [Reply.arr [Reply.bytes "id", Reply.int64 nodeID],
    Reply.arr [Reply.bytes "labels", Reply.arr [Reply.bytes label]],
    Reply.arr [Reply.bytes "properties",
      Reply.arr [Reply.arr [Reply.bytes "name", Reply.bytes name]]]]

/-- A relationship record in the shape the store sends it. -/
def sampleEdge (edgeID : Int) (type : String) (src dest : Int) : Reply :=
  Reply.arr [Reply.arr [Reply.bytes "id", Reply.int64 edgeID],
    Reply.arr [Reply.bytes "type", Reply.bytes type],
    Reply.arr [Reply.bytes "src_node", Reply.int64 src],
    Reply.arr [Reply.bytes "dest_node", Reply.int64 dest],
    Reply.arr [Reply.bytes "properties", Reply.arr []]]

/-- A client whose every `[]interface{}` call answers `result`. -/
def stubClient (result : List Reply) : redisClient :=
  { RunFlatCmd := fun rcv _ _ _ =>
      match rcv with
      | Rcv.anySlice => Except.ok result
      | Rcv.stringSlices => Except.ok []
      | Rcv.string => Except.ok ""
    RunCmd := fun rcv _ _ =>
      match rcv with
      | Rcv.anySlice => Except.ok result
      | Rcv.stringSlices => Except.ok []
      | Rcv.string => Except.ok "" }

/-- A graph request. -/
def sampleQuery : queryModel :=
  { Query := "", Command := "graph.query", Key := "movies", Cypher := "MATCH (a)-[r]->(b) RETURN a, r, b" }

/-- A reply of two result rows in which node 0 and relationship 0 occur twice;
the second occurrence of node 0 carries another label and name. -/
def sampleReply : List Reply :=
  [Reply.arr [Reply.bytes "a", Reply.bytes "r", Reply.bytes "b"],
   Reply.arr [
     Reply.arr [sampleNode 0 "writer" "Mark Twain", sampleEdge 0 "wrote" 0 1,
                sampleNode 1 "book" "Tom Sawyer"],
     Reply.arr [sampleNode 0 "author" "Samuel Clemens", sampleEdge 0 "wrote" 0 1,
                sampleNode 2 "book" "Huckleberry Finn"]]]

/-- The response `queryGraphQuery` gives for `sampleReply`. -/
def sampleResponse : DataResponse :=
  { Frames := [
      nodesFrameOf [
        { id := "0", title := "writer", subTitle := "", mainStat := "Mark Twain", arc := 1 },
        { id := "1", title := "book", subTitle := "", mainStat := "Tom Sawyer", arc := 1 },
        { id := "2", title := "book", subTitle := "", mainStat := "Huckleberry Finn", arc := 1 }],
      edgesFrameOf [
        { id := "0", source := "0", target := "1", mainStat := "wrote" },
        { id := "0", source := "0", target := "1", mainStat := "wrote" }]]
    Error := none }

/-- A decoding routine that makes one call named after itself and returns the
empty response. -/
def stubRoutine (name : String) (qm : queryModel) (_client : redisClient) : Result :=
  { out := Except.ok { Frames := [], Error := none }
    calls := [{ flat := false, cmd := name, args := [qm.Key] }] }

/-- Externals for the examples: the decoder accepts the body of an empty JSON object only, and
every routine defined outside the embedded files is a `stubRoutine`. -/
def sampleExternals : Externals :=
  { Unmarshal := fun body =>
      if body = "\x7b\x7d" then Except.ok sampleQuery
      else Except.error (GoError.plain "unexpected end of JSON input")
    ParseFloat := fun _ => { bits := 0 }
    createFrameValue := fun key _ => { Name := key, Meta := none, Fields := [] }
    queryCustomCommand := stubRoutine "queryCustomCommand"
    queryTsGet := stubRoutine "queryTsGet"
    queryTsInfo := stubRoutine "queryTsInfo"
    queryTsQueryIndex := stubRoutine "queryTsQueryIndex"
    queryTsRange := fun _ _ => stubRoutine "queryTsRange"
    queryTsMRange := fun _ _ => stubRoutine "queryTsMRange"
    queryHGetAll := stubRoutine "queryHGetAll"
    queryHGet := stubRoutine "queryHGet"
    queryHMGet := stubRoutine "queryHMGet"
    querySMembers := stubRoutine "querySMembers"
    queryInfo := stubRoutine "queryInfo"
    queryClientList := stubRoutine "queryClientList"
    querySlowlogGet := stubRoutine "querySlowlogGet"
    queryXInfoStream := stubRoutine "queryXInfoStream"
    queryXRange := stubRoutine "queryXRange"
    queryXRevRange := stubRoutine "queryXRevRange"
    queryClusterInfo := stubRoutine "queryClusterInfo"
    queryClusterNodes := stubRoutine "queryClusterNodes"
    queryFtInfo := stubRoutine "queryFtInfo"
    queryTMScan := stubRoutine "queryTMScan"
    queryRgPystats := stubRoutine "queryRgPystats"
    queryRgDumpregistrations := stubRoutine "queryRgDumpregistrations"
    queryRgPyexecute := stubRoutine "queryRgPyexecute" }

/-! ## Specification-level notions for the dispatcher and the slow log -/

/-- The command names of the fixed mapping of `query`, in source order. -/
def knownCommands : List String :=
  ["ts.get", "ts.info", "ts.queryindex", "ts.range", "ts.mrange", "hgetall", "hget", "hmget",
   "smembers", "hkeys", "type", "get", "ttl", "hlen", "xlen", "llen", "scard", "info",
   "clientList", "slowlogGet", "xinfoStream", "xrange", "xrevrange", "clusterInfo",
   "clusterNodes", "ft.info", "tmscan", "rg.pystats", "rg.dumpregistrations", "rg.pyexecute",
   "graph.query", "graph.slowlog"]

/-- The fixed mapping from command name to decoding routine, as a table. -/
def commandTable (ext : Externals) (from_ to_ : Int) :
    List (String × (queryModel → redisClient → Result)) :=
  [("ts.get", ext.queryTsGet), ("ts.info", ext.queryTsInfo),
   ("ts.queryindex", ext.queryTsQueryIndex), ("ts.range", ext.queryTsRange from_ to_),
   ("ts.mrange", ext.queryTsMRange from_ to_), ("hgetall", ext.queryHGetAll),
   ("hget", ext.queryHGet), ("hmget", ext.queryHMGet), ("smembers", ext.querySMembers),
   ("hkeys", ext.querySMembers), ("type", queryKeyCommand ext.createFrameValue),
   ("get", queryKeyCommand ext.createFrameValue), ("ttl", queryKeyCommand ext.createFrameValue),
   ("hlen", queryKeyCommand ext.createFrameValue), ("xlen", queryKeyCommand ext.createFrameValue),
   ("llen", queryKeyCommand ext.createFrameValue), ("scard", queryKeyCommand ext.createFrameValue),
   ("info", ext.queryInfo), ("clientList", ext.queryClientList),
   ("slowlogGet", ext.querySlowlogGet), ("xinfoStream", ext.queryXInfoStream),
   ("xrange", ext.queryXRange), ("xrevrange", ext.queryXRevRange),
   ("clusterInfo", ext.queryClusterInfo), ("clusterNodes", ext.queryClusterNodes),
   ("ft.info", ext.queryFtInfo), ("tmscan", ext.queryTMScan),
   ("rg.pystats", ext.queryRgPystats), ("rg.dumpregistrations", ext.queryRgDumpregistrations),
   ("rg.pyexecute", ext.queryRgPyexecute), ("graph.query", queryGraphQuery),
   ("graph.slowlog", queryGraphSlowlog ext.ParseFloat)]

/-- The response with zero frames and no error. -/
def emptyResponse : DataResponse := { Frames := [], Error := none }

/-- The chain of an error: the error itself, then what it wraps, and so on. -/
def errorChain : GoError → List GoError
  | GoError.plain msg => [GoError.plain msg]
  | GoError.wrap msg inner => GoError.wrap msg inner :: errorChain inner
  | GoError.resp2 e => GoError.resp2 e :: errorChain e

/-- Whether an error is a store-protocol error `resp2.Error`. -/
def GoError.isResp2 : GoError → Bool
  | GoError.resp2 _ => true
  | _ => false

/-- Whether a reply value is a sequence. -/
def Reply.isSlice : Reply → Bool
  | Reply.arr _ => true
  | _ => false

/-- Calendar reading of an instant in UTC. -/
structure CivilTime where
  year : Int
  month : Int
  day : Int
  hour : Int
  minute : Int
  second : Int
  deriving DecidableEq, Repr

/-- The UTC calendar date and time of day of an instant (proleptic Gregorian
calendar), which is what the RFC 3339 text of a `time.Time` spells out. -/
def Time.UTC (t : Time) : CivilTime :=
  let days := t.sec / 86400
  let rem := t.sec % 86400
  let z := days + 719468
  let era := z / 146097
  let doe := z - era * 146097
  let yoe := (doe - doe / 1460 + doe / 36524 - doe / 146096) / 365
  let doy := doe - (365 * yoe + yoe / 4 - yoe / 100)
  let mp := (5 * doy + 2) / 153
  let d := doy - (153 * mp + 2) / 5 + 1
  let m := if mp < 10 then mp + 3 else mp - 9
  let y := yoe + era * 400 + (if m ≤ 2 then 1 else 0)
  { year := y, month := m, day := d, hour := rem / 3600, minute := rem % 3600 / 60,
    second := rem % 60 }

/-- A client whose every `[][]string` call answers `entries`. -/
def slowlogClient (entries : List (List String)) : redisClient :=
  { RunFlatCmd := fun rcv _ _ _ =>
      match rcv with
      | Rcv.anySlice => Except.ok []
      | Rcv.stringSlices => Except.ok entries
      | Rcv.string => Except.ok ""
    RunCmd := fun rcv _ _ =>
      match rcv with
      | Rcv.anySlice => Except.ok []
      | Rcv.stringSlices => Except.ok entries
      | Rcv.string => Except.ok "" }

/-- A client whose every call fails with `err`. -/
def failingClient (err : GoError) : redisClient :=
  { RunFlatCmd := fun _ _ _ _ => Except.error err
    RunCmd := fun _ _ _ => Except.error err }

/-- The slow-log frame whose rows are read off the given entries, in order;
`parseFloat` stands for `strconv.ParseFloat(s, 64)` with the error dropped. -/
def slowlogFrameOf (parseFloat : String → float64) (entries : List (List String)) : Frame :=
  { Name := "GRAPH.SLOWLOG"
    Meta := none
    Fields := [{ Name := "timestamp", Config := none,
                 vector := Vector.times
                   (entries.map (fun e => Time.Unix (ParseInt (e[0]?.getD "")))) },
               { Name := "command", Config := none,
                 vector := Vector.strings (entries.map (fun e => e[1]?.getD "")) },
               { Name := "query", Config := none,
                 vector := Vector.strings (entries.map (fun e => e[2]?.getD "")) },
               { Name := "duration", Config := some { Unit := "µs" },
                 vector := Vector.float64s (entries.map (fun e => parseFloat (e[3]?.getD ""))) }] }

/-- A request whose body `sampleExternals` decodes into `sampleQuery`. -/
def sampleRequest : DataQuery :=
  { JSON := "\x7b\x7d", From := Time.Unix 0, To := Time.Unix 0 }

/-- A reply whose first result row is sound and whose second result row holds
a 3-field entry with a scalar first field. -/
def faultyReply : List Reply :=
  [Reply.arr [Reply.bytes "a"],
   Reply.arr [
     Reply.arr [sampleNode 0 "writer" "Mark Twain", sampleEdge 0 "wrote" 0 1],
     Reply.arr [Reply.arr [Reply.int64 1, Reply.arr [], Reply.arr []]]]]

/-- A reply whose first result row is sound and whose second result row holds
a projected property value, a scalar, next to a node. -/
def scalarReply : List Reply :=
  [Reply.arr [Reply.bytes "a", Reply.bytes "a.name"],
   Reply.arr [
     Reply.arr [sampleNode 0 "writer" "Mark Twain", sampleEdge 0 "wrote" 0 1],
     Reply.arr [sampleNode 1 "book" "Tom Sawyer", Reply.bytes "Tom Sawyer"]]]

/-- Externals that decode every body into a graph request carrying the raw
query text `PING`. -/
def customExternals : Externals :=
  { sampleExternals with
    Unmarshal := fun _ => Except.ok { sampleQuery with Query := "PING" } }

/-- A float parser for the examples: the text `1234.5` gives the double 1234.5,
whose bit pattern is `0x40934A0000000000`. -/
def sampleParseFloat (s : String) : float64 :=
  if s = "1234.5" then { bits := 0x40934A0000000000 } else { bits := 0 }

/-! # Proofs -/

/-! ## Lists and frames -/

theorem appendRow_nodesFrameOf (rows : List nodeEntry) (n : nodeEntry) :
    (nodesFrameOf rows).AppendRow [Cell.string n.id, Cell.string n.title,
      Cell.string n.subTitle, Cell.string n.mainStat, Cell.int64 n.arc]
      = Except.ok (nodesFrameOf (rows ++ [n])) := by
  simp [nodesFrameOf, Frame.AppendRow, appendCells, Vector.Append]

theorem appendRow_edgesFrameOf (rows : List edgeEntry) (e : edgeEntry) :
    (edgesFrameOf rows).AppendRow [Cell.string e.id, Cell.string e.source,
      Cell.string e.target, Cell.string e.mainStat]
      = Except.ok (edgesFrameOf (rows ++ [e])) := by
  simp [edgesFrameOf, Frame.AppendRow, appendCells, Vector.Append]

theorem firstOccurrences_snoc (xs : List nodeEntry) (x : nodeEntry) :
    firstOccurrences (xs ++ [x])
      = if x.id ∈ xs.map (fun n => n.id) then firstOccurrences xs
        else firstOccurrences xs ++ [x] := by
  induction xs with
  | nil => simp [firstOccurrences]
  | cons a xs ih =>
    rw [List.cons_append, firstOccurrences, ih]
    by_cases h1 : x.id ∈ xs.map (fun n => n.id)
    · rw [if_pos h1, if_pos (by simp only [List.map_cons, List.mem_cons]; exact Or.inr h1)]
      rfl
    · rw [if_neg h1]
      by_cases h2 : x.id = a.id
      · rw [if_pos (by simp only [List.map_cons, List.mem_cons]; exact Or.inl h2)]
        simp [h2, List.filter_append, firstOccurrences]
      · rw [if_neg (by simp only [List.map_cons, List.mem_cons]; exact fun h => h.elim h2 h1)]
        simp [h2, List.filter_append, firstOccurrences]

theorem mem_ids_firstOccurrences (xs : List nodeEntry) (i : String) :
    i ∈ (firstOccurrences xs).map (fun n => n.id) ↔ i ∈ xs.map (fun n => n.id) := by
  induction xs with
  | nil => simp [firstOccurrences]
  | cons a xs ih =>
    simp only [firstOccurrences, List.map_cons, List.mem_cons]
    constructor
    · rintro (h | h)
      · exact Or.inl h
      · right
        rw [← ih]
        simp only [List.mem_map, List.mem_filter] at h ⊢
        obtain ⟨m, ⟨hm, _⟩, rfl⟩ := h
        exact ⟨m, hm, rfl⟩
    · rintro (h | h)
      · exact Or.inl h
      · by_cases hia : i = a.id
        · exact Or.inl hia
        · right
          rw [← ih] at h
          simp only [List.mem_map, List.mem_filter] at h ⊢
          obtain ⟨m, hm, rfl⟩ := h
          exact ⟨m, ⟨hm, by simpa using hia⟩, rfl⟩

theorem nodup_ids_firstOccurrences (xs : List nodeEntry) :
    ((firstOccurrences xs).map (fun n => n.id)).Nodup := by
  induction xs with
  | nil => simp [firstOccurrences]
  | cons a xs ih =>
    simp only [firstOccurrences, List.map_cons, List.nodup_cons]
    constructor
    · simp [List.mem_map, List.mem_filter]
    · exact ih.sublist ((List.filter_sublist _).map _)

theorem tracks_snoc_seen {st : GraphState} {p : List nodeEntry} {es : List edgeEntry}
    (h : Tracks st p es) (x : nodeEntry) (v : Bool)
    (hx : st.existingNodes.lookup x.id = some v) : Tracks st (p ++ [x]) es := by
  have hmem : x.id ∈ p.map (fun n => n.id) := by
    by_contra hc
    rw [(h.keys x.id).mpr hc] at hx
    cases hx
  refine ⟨?_, h.edges, ?_⟩
  · rw [firstOccurrences_snoc, if_pos hmem]; exact h.nodes
  · intro i
    rw [h.keys i]
    simp only [List.map_append, List.map_cons, List.map_nil, List.mem_append, List.mem_singleton,
      not_or]
    constructor
    · intro hi
      exact ⟨hi, fun heq => hi (heq ▸ hmem)⟩
    · exact fun hi => hi.1

theorem tracks_snoc_new {st : GraphState} {p : List nodeEntry} {es : List edgeEntry}
    (h : Tracks st p es) (x : nodeEntry)
    (hx : st.existingNodes.lookup x.id = none) :
    Tracks { st with frameWithNodes := nodesFrameOf (firstOccurrences p ++ [x]),
                     existingNodes := (x.id, true) :: st.existingNodes } (p ++ [x]) es := by
  have hmem : x.id ∉ p.map (fun n => n.id) := (h.keys x.id).mp hx
  refine ⟨?_, h.edges, ?_⟩
  · rw [firstOccurrences_snoc, if_neg hmem]
  · intro i
    simp only [List.lookup_cons, List.map_append, List.map_cons, List.map_nil, List.mem_append,
      List.mem_singleton, not_or]
    by_cases hi : i = x.id
    · subst hi
      simp
    · have hb : (i == x.id) = false := by simpa using hi
      rw [hb]
      simp only [h.keys i]
      exact ⟨fun h1 => ⟨h1, hi⟩, fun h1 => h1.1⟩

theorem appendNodes_tracks (xs : List nodeEntry) :
    ∀ (st : GraphState) (p : List nodeEntry) (es : List edgeEntry), Tracks st p es →
      ∃ st1, appendNodes st xs = Except.ok st1 ∧ Tracks st1 (p ++ xs) es := by
  induction xs with
  | nil =>
    intro st p es h
    exact ⟨st, rfl, by simpa using h⟩
  | cons x xs ih =>
    intro st p es h
    cases hx : st.existingNodes.lookup x.id with
    | some v =>
      obtain ⟨st1, h1, h2⟩ := ih st (p ++ [x]) es (tracks_snoc_seen h x v hx)
      refine ⟨st1, ?_, by simpa using h2⟩
      simp only [appendNodes, hx]
      exact h1
    | none =>
      obtain ⟨st1, h1, h2⟩ := ih _ (p ++ [x]) es (tracks_snoc_new h x hx)
      refine ⟨st1, ?_, by simpa using h2⟩
      simp only [appendNodes, hx, h.nodes, appendRow_nodesFrameOf]
      exact h1

theorem appendEdges_tracks (ys : List edgeEntry) :
    ∀ (st : GraphState) (p : List nodeEntry) (es : List edgeEntry), Tracks st p es →
      ∃ st1, appendEdges st ys = Except.ok st1 ∧ Tracks st1 p (es ++ ys) := by
  induction ys with
  | nil =>
    intro st p es h
    exact ⟨st, rfl, by simpa using h⟩
  | cons y ys ih =>
    intro st p es h
    have h0 : Tracks { st with frameWithEdges := edgesFrameOf (es ++ [y]) } p (es ++ [y]) :=
      ⟨h.nodes, rfl, h.keys⟩
    obtain ⟨st1, h1, h2⟩ := ih _ p (es ++ [y]) h0
    refine ⟨st1, ?_, by simpa using h2⟩
    simp only [appendEdges, h.edges, appendRow_edgesFrameOf]
    exact h1

theorem rowsLoop_tracks (rows : List Reply) :
    ∀ (st : GraphState) (p : List nodeEntry) (es : List edgeEntry), Tracks st p es →
      match rowParts rows with
      | Except.error e => rowsLoop st rows = Except.error e
      | Except.ok parts =>
        ∃ st1, rowsLoop st rows = Except.ok st1 ∧
          Tracks st1 (p ++ allNodes parts) (es ++ allEdges parts) := by
  induction rows with
  | nil =>
    intro st p es h
    simp only [rowParts]
    exact ⟨st, rfl, by simpa [allNodes, allEdges] using h⟩
  | cons r rows ih =>
    intro st p es h
    simp only [rowParts, rowsLoop]
    cases hr : findAllNodesAndEdges r with
    | error e => simp
    | ok part =>
      obtain ⟨ns, eds⟩ := part
      obtain ⟨st1, h1, t1⟩ := appendNodes_tracks ns st p es h
      obtain ⟨st2, h2, t2⟩ := appendEdges_tracks eds st1 _ es t1
      have := ih st2 _ _ t2
      simp only [h1, h2]
      cases hp : rowParts rows with
      | error e => simpa [hp] using this
      | ok parts =>
        simp only [hp] at this ⊢
        obtain ⟨st3, h3, t3⟩ := this
        exact ⟨st3, h3, by simpa [allNodes, allEdges, List.append_assoc] using t3⟩

theorem rowParts_ok_iff (rows : List Reply) (parts : List (List nodeEntry × List edgeEntry)) :
    rowParts rows = Except.ok parts ↔ rows.map findAllNodesAndEdges = parts.map Except.ok := by
  induction rows generalizing parts with
  | nil =>
    cases parts <;> simp [rowParts]
  | cons r rows ih =>
    simp only [rowParts, List.map_cons]
    cases hr : findAllNodesAndEdges r with
    | error e =>
      cases parts <;> simp
    | ok part =>
      cases hp : rowParts rows with
      | error e =>
        cases parts with
        | nil => simp
        | cons q qs =>
          have := (ih qs).not.mp (by simp [hp])
          simp [this]
      | ok ps =>
        cases parts with
        | nil => simp
        | cons q qs =>
          simp only [Except.ok.injEq, List.cons.injEq, List.map_cons]
          constructor
          · rintro ⟨rfl, rfl⟩
            exact ⟨rfl, (ih ps).mp hp⟩
          · rintro ⟨rfl, h⟩
            have := (ih qs).mpr h
            rw [hp] at this
            exact ⟨rfl, by injection this⟩

theorem graphFrames_ok (result : List Reply) (resp : DataResponse)
    (h : graphFrames result = Except.ok resp) :
    ∃ rows parts, result[1]? = some (Reply.arr rows) ∧
      rows.map findAllNodesAndEdges = parts.map Except.ok ∧
      resp = { Frames := [nodesFrameOf (firstOccurrences (allNodes parts)),
                          edgesFrameOf (allEdges parts)], Error := none } := by
  unfold graphFrames at h
  cases h1 : result[1]? with
  | none => simp [index, h1, bind, Except.bind] at h
  | some r =>
    cases r with
    | arr rows =>
      have t0 : Tracks initialState [] [] := ⟨rfl, rfl, by simp [initialState]⟩
      have hl := rowsLoop_tracks rows _ [] [] t0
      cases hp : rowParts rows with
      | error e =>
        simp only [hp] at hl
        simp [index, h1, bind, Except.bind, Reply.asSlice, hl] at h
      | ok parts =>
        simp only [hp] at hl
        obtain ⟨st1, hs, t1⟩ := hl
        refine ⟨rows, parts, rfl, (rowParts_ok_iff rows parts).mp hp, ?_⟩
        simp [index, h1, bind, Except.bind, Reply.asSlice, hs, pure, Except.pure] at h
        rw [← h, t1.nodes, t1.edges]
        simp
    | null => simp [index, h1, bind, Except.bind, Reply.asSlice] at h
    | int64 n => simp [index, h1, bind, Except.bind, Reply.asSlice] at h
    | bytes b => simp [index, h1, bind, Except.bind, Reply.asSlice] at h
    | str s => simp [index, h1, bind, Except.bind, Reply.asSlice] at h

theorem graphFrames_of_parts (result rows : List Reply)
    (parts : List (List nodeEntry × List edgeEntry))
    (h1 : result[1]? = some (Reply.arr rows))
    (h2 : rows.map findAllNodesAndEdges = parts.map Except.ok) :
    graphFrames result = Except.ok
      { Frames := [nodesFrameOf (firstOccurrences (allNodes parts)),
                   edgesFrameOf (allEdges parts)], Error := none } := by
  have t0 : Tracks initialState [] [] := ⟨rfl, rfl, by simp [initialState]⟩
  have hl := rowsLoop_tracks rows _ [] [] t0
  rw [(rowParts_ok_iff rows parts).mpr h2] at hl
  obtain ⟨st1, hs, t1⟩ := hl
  simp [graphFrames, index, h1, bind, Except.bind, Reply.asSlice, hs, pure, Except.pure,
    t1.nodes, t1.edges]

theorem queryGraphQuery_out (qm : queryModel) (client : redisClient) (result : List Reply)
    (h : client.RunFlatCmd Rcv.anySlice "GRAPH.QUERY" qm.Key [qm.Cypher] = Except.ok result) :
    (queryGraphQuery qm client).out = graphFrames result := by
  simp only [queryGraphQuery]
  split
  · next err he => rw [h] at he; cases he
  · next res he => rw [h] at he; cases he; rfl

theorem entryStep_three (acc : List nodeEntry × List edgeEntry) (fields : List Reply)
    (h : fields.length = 3) :
    entryStep acc (Reply.arr fields) =
      match nodeOfFields fields with
      | Except.error e => Except.error e
      | Except.ok node => Except.ok (acc.1 ++ [node], acc.2) := by
  simp only [entryStep, Reply.asSlice, bind, Except.bind, h, if_true, pure, Except.pure]
  cases nodeOfFields fields <;> simp

theorem entryStep_five (acc : List nodeEntry × List edgeEntry) (fields : List Reply)
    (h : fields.length = 5) :
    entryStep acc (Reply.arr fields) =
      match edgeOfFields fields with
      | Except.error e => Except.error e
      | Except.ok edge => Except.ok (acc.1, acc.2 ++ [edge]) := by
  simp only [entryStep, Reply.asSlice, bind, Except.bind, h, pure, Except.pure]
  cases edgeOfFields fields <;> simp

theorem entryStep_other (acc : List nodeEntry × List edgeEntry) (fields : List Reply)
    (h3 : fields.length ≠ 3) (h5 : fields.length ≠ 5) :
    entryStep acc (Reply.arr fields) = Except.ok acc := by
  simp [entryStep, Reply.asSlice, bind, Except.bind, h3, h5, pure, Except.pure]

theorem entryStep_ok_arr (acc acc1 : List nodeEntry × List edgeEntry) (entry : Reply)
    (h : entryStep acc entry = Except.ok acc1) : ∃ fields, entry = Reply.arr fields := by
  cases entry with
  | arr fields => exact ⟨fields, rfl⟩
  | null => simp [entryStep, Reply.asSlice, bind, Except.bind] at h
  | int64 n => simp [entryStep, Reply.asSlice, bind, Except.bind] at h
  | bytes b => simp [entryStep, Reply.asSlice, bind, Except.bind] at h
  | str s => simp [entryStep, Reply.asSlice, bind, Except.bind] at h

theorem entryStep_length (acc acc1 : List nodeEntry × List edgeEntry) (entry : Reply)
    (h : entryStep acc entry = Except.ok acc1) :
    acc1.1.length = acc.1.length + (if fieldCount entry = some 3 then 1 else 0) ∧
    acc1.2.length = acc.2.length + (if fieldCount entry = some 5 then 1 else 0) := by
  obtain ⟨fields, rfl⟩ := entryStep_ok_arr acc acc1 entry h
  simp only [fieldCount, Option.some.injEq]
  by_cases h3 : fields.length = 3
  · rw [entryStep_three acc fields h3] at h
    cases hn : nodeOfFields fields with
    | error e => simp [hn] at h
    | ok node =>
      simp only [hn, Except.ok.injEq] at h
      subst h
      simp [h3]
  · by_cases h5 : fields.length = 5
    · rw [entryStep_five acc fields h5] at h
      cases hn : edgeOfFields fields with
      | error e => simp [hn] at h
      | ok edge =>
        simp only [hn, Except.ok.injEq] at h
        subst h
        simp [h5]
    · rw [entryStep_other acc fields h3 h5] at h
      cases h
      simp [h3, h5]

theorem entriesLoop_length (entries : List Reply) :
    ∀ (acc acc1 : List nodeEntry × List edgeEntry), entriesLoop acc entries = Except.ok acc1 →
      acc1.1.length = acc.1.length + entries.countP (fun e => fieldCount e == some 3) ∧
      acc1.2.length = acc.2.length + entries.countP (fun e => fieldCount e == some 5) := by
  induction entries with
  | nil =>
    intro acc acc1 h
    simp only [entriesLoop, Except.ok.injEq] at h
    subst h
    simp
  | cons e rest ih =>
    intro acc acc1 h
    simp only [entriesLoop] at h
    cases hs : entryStep acc e with
    | error err => simp [hs] at h
    | ok acc2 =>
      simp only [hs] at h
      obtain ⟨i1, i2⟩ := ih acc2 acc1 h
      obtain ⟨s1, s2⟩ := entryStep_length acc acc2 e hs
      rw [i1, i2, s1, s2, List.countP_cons, List.countP_cons]
      simp only [beq_iff_eq]
      constructor <;> omega

theorem findAllNodesAndEdges_length (row : Reply) (ns : List nodeEntry) (es : List edgeEntry)
    (h : findAllNodesAndEdges row = Except.ok (ns, es)) :
    ns.length = countRecords 3 row ∧ es.length = countRecords 5 row := by
  cases row with
  | arr entries =>
    have := entriesLoop_length entries ([], []) (ns, es) h
    simpa [countRecords] using this
  | null => simp only [findAllNodesAndEdges, Except.ok.injEq, Prod.mk.injEq] at h; simp [← h.1, ← h.2, countRecords]
  | int64 n => simp only [findAllNodesAndEdges, Except.ok.injEq, Prod.mk.injEq] at h; simp [← h.1, ← h.2, countRecords]
  | bytes b => simp only [findAllNodesAndEdges, Except.ok.injEq, Prod.mk.injEq] at h; simp [← h.1, ← h.2, countRecords]
  | str s => simp only [findAllNodesAndEdges, Except.ok.injEq, Prod.mk.injEq] at h; simp [← h.1, ← h.2, countRecords]

theorem allEdges_length (rows : List Reply) :
    ∀ parts : List (List nodeEntry × List edgeEntry),
      rows.map findAllNodesAndEdges = parts.map Except.ok →
      (allEdges parts).length = (rows.map (countRecords 5)).sum ∧
      (allNodes parts).length = (rows.map (countRecords 3)).sum := by
  induction rows with
  | nil =>
    intro parts h
    cases parts with
    | nil => simp [allEdges, allNodes]
    | cons q qs => simp at h
  | cons r rows ih =>
    intro parts h
    cases parts with
    | nil => simp at h
    | cons q qs =>
      simp only [List.map_cons, List.cons.injEq] at h
      obtain ⟨i1, i2⟩ := ih qs h.2
      obtain ⟨l1, l2⟩ := findAllNodesAndEdges_length r q.1 q.2 h.1
      simp only [allEdges, allNodes] at i1 i2
      simp [allEdges, allNodes, i1, i2, l1, l2]

theorem find?_filter_of_imp {α : Type} (p q : α → Bool) (l : List α)
    (h : ∀ x, q x = true → p x = true) : (l.filter p).find? q = l.find? q := by
  induction l with
  | nil => rfl
  | cons a l ih =>
    by_cases hq : q a = true
    · simp [List.filter_cons, h a hq, List.find?_cons, hq]
    · have hq2 : q a = false := by simpa using hq
      by_cases hp : p a = true
      · simp [List.filter_cons, hp, List.find?_cons, hq2, ih]
      · simp [List.filter_cons, hp, List.find?_cons, hq2, ih]

theorem find?_firstOccurrences (xs : List nodeEntry) (i : String) :
    (firstOccurrences xs).find? (fun m => m.id == i) = xs.find? (fun m => m.id == i) := by
  induction xs with
  | nil => rfl
  | cons a xs ih =>
    simp only [firstOccurrences, List.find?_cons]
    by_cases ha : a.id = i
    · simp [ha]
    · have hb : (a.id == i) = false := by simpa using ha
      rw [hb]
      simp only
      rw [find?_filter_of_imp _ _ _ ?_, ih]
      intro x hx
      have : x.id = i := by simpa using hx
      simpa [this] using fun h => ha h.symm

theorem firstOccurrences_sublist (xs : List nodeEntry) :
    (firstOccurrences xs).Sublist xs := by
  induction xs with
  | nil => exact List.Sublist.slnil
  | cons a xs ih =>
    simp only [firstOccurrences]
    exact ((List.filter_sublist _).trans ih).cons₂ a

/-! ## Decimal text -/

theorem digitChar_decimal (m : Nat) (h : m < 10) :
    (Nat.digitChar m).isDigit = true ∧ (Nat.digitChar m).toNat - 48 = m ∧
      (Nat.digitChar m = '0' → m = 0) := by
  interval_cases m <;> decide

theorem toDigitsCore_decimal (fuel : Nat) :
    ∀ (n : Nat) (ds : List Char), n < fuel →
      ∃ pre, Nat.toDigitsCore 10 fuel n ds = pre ++ ds ∧ pre ≠ [] ∧
        (∀ k : Nat, pre.foldl (fun acc c =>
            match acc with
            | none => none
            | some v => if c.isDigit then some (10 * v + (c.toNat - 48)) else none) (some k)
          = some (k * 10 ^ pre.length + n)) ∧
        (pre.head? = some '0' → pre = ['0']) := by
  induction fuel with
  | zero => intro n ds h; omega
  | succ fuel ih =>
    intro n ds h
    obtain ⟨hd, hv, hz⟩ := digitChar_decimal (n % 10) (Nat.mod_lt n (by decide))
    by_cases h0 : n / 10 = 0
    · refine ⟨[Nat.digitChar (n % 10)], ?_, by simp, ?_, ?_⟩
      · simp [Nat.toDigitsCore, h0]
      · intro k
        simp only [List.foldl_cons, List.foldl_nil, hd, if_true, hv, List.length_singleton,
          pow_one, Option.some.injEq]
        omega
      · intro hh
        simp only [List.head?_cons, Option.some.injEq] at hh
        rw [hh]
    · have hlt : n / 10 < fuel := by omega
      obtain ⟨pre, hp, hne, hval, hzero⟩ := ih (n / 10) (Nat.digitChar (n % 10) :: ds) hlt
      refine ⟨pre ++ [Nat.digitChar (n % 10)], ?_, by simp, ?_, ?_⟩
      · simp [Nat.toDigitsCore, h0, hp]
      · intro k
        simp only [List.foldl_append, hval k, List.foldl_cons, List.foldl_nil, hd, if_true, hv,
          List.length_append, List.length_singleton, Option.some.injEq, pow_succ]
        have := Nat.div_add_mod n 10
        nlinarith [this]
      · intro hh
        exfalso
        cases pre with
        | nil => exact hne rfl
        | cons c cs =>
          have hpre := hzero hh
          have hv0 := hval 0
          rw [hpre] at hv0
          simp at hv0
          omega

theorem decimalValue_toDigits (n : Nat) :
    decimalValue (Nat.toDigits 10 n) = some n ∧
      ((Nat.toDigits 10 n).head? = some '0' → Nat.toDigits 10 n = ['0']) := by
  obtain ⟨pre, hp, hne, hval, hz⟩ := toDigitsCore_decimal (n + 1) n [] (Nat.lt_succ_self n)
  simp only [List.append_nil] at hp
  rw [Nat.toDigits, hp]
  refine ⟨?_, hz⟩
  cases pre with
  | nil => exact absurd rfl hne
  | cons c cs =>
    have := hval 0
    simp only [decimalValue]
    rw [this]
    simp

theorem FormatInt_decimal (i : Int) :
    ∃ ds, (FormatInt i 10).data = (if i < 0 then '-' :: ds else ds) ∧
      decimalValue ds = some i.natAbs ∧ (ds.head? = some '0' → ds = ['0']) := by
  cases i with
  | ofNat n =>
    refine ⟨Nat.toDigits 10 n, ?_, (decimalValue_toDigits n).1, (decimalValue_toDigits n).2⟩
    have : ¬ (Int.ofNat n < 0) := by simp
    rw [if_neg this]
    rfl
  | negSucc n =>
    refine ⟨Nat.toDigits 10 (n + 1), ?_, (decimalValue_toDigits (n + 1)).1,
      (decimalValue_toDigits (n + 1)).2⟩
    have : Int.negSucc n < 0 := Int.negSucc_lt_zero n
    rw [if_pos this]
    rfl

/-! ## Claims about `queryGraphQuery` -/

/-- C1: whenever the client hands `queryGraphQuery` a graph reply and the routine
completes without fault, the response holds the "nodes" frame first, its first
column is the string column "id", and the values of that column are pairwise
distinct. -/
theorem queryGraphQuery_node_ids_nodup (qm : queryModel) (client : redisClient)
    (result : List Reply) (resp : DataResponse)
    (hreply : client.RunFlatCmd Rcv.anySlice "GRAPH.QUERY" qm.Key [qm.Cypher] = Except.ok result)
    (hdone : (queryGraphQuery qm client).out = Except.ok resp) :
    ∃ nodes edges ids, resp.Frames = [nodes, edges] ∧ nodes.Name = "nodes" ∧
      nodes.Fields[0]? = some { Name := "id", Config := none, vector := Vector.strings ids } ∧
      nodes.stringColumn "id" = ids ∧ ids.Nodup := by
  rw [queryGraphQuery_out qm client result hreply] at hdone
  obtain ⟨rows, parts, _, _, rfl⟩ := graphFrames_ok result resp hdone
  exact ⟨_, _, _, rfl, rfl, rfl, rfl, nodup_ids_firstOccurrences (allNodes parts)⟩

/-- Witness of C1 on the sample reply, in which node 0 occurs in both rows. -/
theorem queryGraphQuery_node_ids_nodup_witness :
    (queryGraphQuery sampleQuery (stubClient sampleReply)).out = Except.ok sampleResponse ∧
    ∃ nodes edges ids, sampleResponse.Frames = [nodes, edges] ∧ nodes.Name = "nodes" ∧
      nodes.Fields[0]? = some { Name := "id", Config := none, vector := Vector.strings ids } ∧
      nodes.stringColumn "id" = ids ∧ ids.Nodup :=
  ⟨by decide,
  queryGraphQuery_node_ids_nodup sampleQuery (stubClient sampleReply) sampleReply sampleResponse
      rfl (by decide)⟩

/-- C2: whenever `queryGraphQuery` completes on a graph reply, element 1 of the
reply is a sequence of rows on each of which `findAllNodesAndEdges` returned,
and the "nodes" frame consists of the first occurrences, by id, of the returned
nodes concatenated in row order and then within-row order: the rows form a
sublist of that concatenation, and for every id the row carrying it is the first
node of the concatenation carrying it. -/
theorem queryGraphQuery_nodes_firstOccurrences (qm : queryModel) (client : redisClient)
    (result : List Reply) (resp : DataResponse)
    (hreply : client.RunFlatCmd Rcv.anySlice "GRAPH.QUERY" qm.Key [qm.Cypher] = Except.ok result)
    (hdone : (queryGraphQuery qm client).out = Except.ok resp) :
    ∃ rows parts, result[1]? = some (Reply.arr rows) ∧
      rows.map findAllNodesAndEdges = parts.map Except.ok ∧
      resp.Frames[0]? = some (nodesFrameOf (firstOccurrences (allNodes parts))) ∧
      (firstOccurrences (allNodes parts)).Sublist (allNodes parts) ∧
      ∀ i : String, (firstOccurrences (allNodes parts)).find? (fun m => m.id == i)
        = (allNodes parts).find? (fun m => m.id == i) := by
  rw [queryGraphQuery_out qm client result hreply] at hdone
  obtain ⟨rows, parts, h1, h2, rfl⟩ := graphFrames_ok result resp hdone
  exact ⟨rows, parts, h1, h2, rfl, firstOccurrences_sublist _, find?_firstOccurrences _⟩

/-- Witness of C2 on the sample reply: the second occurrence of node 0, with
another title and mainStat, leaves the row of node 0 as it was. -/
theorem queryGraphQuery_nodes_firstOccurrences_witness :
    (queryGraphQuery sampleQuery (stubClient sampleReply)).out = Except.ok sampleResponse ∧
    ∃ rows parts, sampleReply[1]? = some (Reply.arr rows) ∧
      rows.map findAllNodesAndEdges = parts.map Except.ok ∧
      sampleResponse.Frames[0]? = some (nodesFrameOf (firstOccurrences (allNodes parts))) ∧
      (firstOccurrences (allNodes parts)).Sublist (allNodes parts) ∧
      ∀ i : String, (firstOccurrences (allNodes parts)).find? (fun m => m.id == i)
        = (allNodes parts).find? (fun m => m.id == i) :=
  ⟨by decide,
  queryGraphQuery_nodes_firstOccurrences sampleQuery (stubClient sampleReply) sampleReply
      sampleResponse rfl (by decide)⟩

/-- C3: whenever `queryGraphQuery` completes on a graph reply, the "edges" frame
holds every edge returned by `findAllNodesAndEdges`, concatenated in row order
and then within-row order with nothing removed, and its number of rows is the
total number of 5-field entries of the result rows. -/
theorem queryGraphQuery_edges_all (qm : queryModel) (client : redisClient)
    (result : List Reply) (resp : DataResponse)
    (hreply : client.RunFlatCmd Rcv.anySlice "GRAPH.QUERY" qm.Key [qm.Cypher] = Except.ok result)
    (hdone : (queryGraphQuery qm client).out = Except.ok resp) :
    ∃ rows parts edges, result[1]? = some (Reply.arr rows) ∧
      rows.map findAllNodesAndEdges = parts.map Except.ok ∧
      resp.Frames[1]? = some edges ∧ edges = edgesFrameOf (allEdges parts) ∧
      edges.Rows = (rows.map (countRecords 5)).sum := by
  rw [queryGraphQuery_out qm client result hreply] at hdone
  obtain ⟨rows, parts, h1, h2, rfl⟩ := graphFrames_ok result resp hdone
  refine ⟨rows, parts, _, h1, h2, rfl, rfl, ?_⟩
  rw [← (allEdges_length rows parts h2).1]
  simp [edgesFrameOf, Frame.Rows, Vector.len]

/-- Witness of C3 on the sample reply, in which relationship 0 occurs twice and
is kept twice. -/
theorem queryGraphQuery_edges_all_witness :
    (queryGraphQuery sampleQuery (stubClient sampleReply)).out = Except.ok sampleResponse ∧
    ∃ rows parts edges, sampleReply[1]? = some (Reply.arr rows) ∧
      rows.map findAllNodesAndEdges = parts.map Except.ok ∧
      sampleResponse.Frames[1]? = some edges ∧ edges = edgesFrameOf (allEdges parts) ∧
      edges.Rows = (rows.map (countRecords 5)).sum :=
  ⟨by decide,
  queryGraphQuery_edges_all sampleQuery (stubClient sampleReply) sampleReply sampleResponse
      rfl (by decide)⟩

/-! ## Claims about `findAllNodesAndEdges` -/

theorem entriesLoop_append (xs ys : List Reply) :
    ∀ acc : List nodeEntry × List edgeEntry,
      entriesLoop acc (xs ++ ys) =
        match entriesLoop acc xs with
        | Except.error e => Except.error e
        | Except.ok acc1 => entriesLoop acc1 ys := by
  induction xs with
  | nil => intro acc; rfl
  | cons x xs ih =>
    intro acc
    simp only [List.cons_append, entriesLoop]
    cases entryStep acc x with
    | error e => rfl
    | ok acc1 => exact ih acc1

/-- C4, counterexample: an entry with exactly three fields, all of them scalars,
yields no node; the call faults on the type assertion of its first field. -/
theorem findAllNodesAndEdges_three_scalars_fault :
    fieldCount (Reply.arr [Reply.int64 1, Reply.int64 2, Reply.int64 3]) = some 3 ∧
    findAllNodesAndEdges (Reply.arr [Reply.arr [Reply.int64 1, Reply.int64 2, Reply.int64 3]])
      = Except.error Fault.typeAssertion := by
  decide

/-- C4, amended: on every result row on which `findAllNodesAndEdges` completes,
the number of nodes returned is the number of entries with exactly 3 fields and
the number of edges returned is the number of entries with exactly 5 fields;
taken alone, a 3-field entry on which the call completes gives one node and no
edge, a 5-field entry on which it completes gives one edge and no node, and an
entry with any other field count gives no node, no edge and never a fault. -/
theorem findAllNodesAndEdges_by_field_count (entries : List Reply) (ns : List nodeEntry)
    (es : List edgeEntry)
    (hdone : findAllNodesAndEdges (Reply.arr entries) = Except.ok (ns, es)) :
    (ns.length = countRecords 3 (Reply.arr entries) ∧
     es.length = countRecords 5 (Reply.arr entries)) ∧
    (∀ (fields : List Reply) (ns1 : List nodeEntry) (es1 : List edgeEntry),
      fields.length = 3 →
      findAllNodesAndEdges (Reply.arr [Reply.arr fields]) = Except.ok (ns1, es1) →
      ns1.length = 1 ∧ es1 = []) ∧
    (∀ (fields : List Reply) (ns1 : List nodeEntry) (es1 : List edgeEntry),
      fields.length = 5 →
      findAllNodesAndEdges (Reply.arr [Reply.arr fields]) = Except.ok (ns1, es1) →
      ns1 = [] ∧ es1.length = 1) ∧
    (∀ fields : List Reply, fields.length ≠ 3 → fields.length ≠ 5 →
      findAllNodesAndEdges (Reply.arr [Reply.arr fields]) = Except.ok ([], [])) := by
  refine ⟨findAllNodesAndEdges_length _ ns es hdone, ?_, ?_, ?_⟩
  · intro fields ns1 es1 h3 h
    simp only [findAllNodesAndEdges, entriesLoop, entryStep_three _ fields h3] at h
    cases hn : nodeOfFields fields with
    | error e => simp [hn] at h
    | ok node =>
      simp only [hn, List.nil_append, Except.ok.injEq, Prod.mk.injEq] at h
      simp [← h.1, ← h.2]
  · intro fields ns1 es1 h5 h
    simp only [findAllNodesAndEdges, entriesLoop, entryStep_five _ fields h5] at h
    cases hn : edgeOfFields fields with
    | error e => simp [hn] at h
    | ok edge =>
      simp only [hn, List.nil_append, Except.ok.injEq, Prod.mk.injEq] at h
      simp [← h.1, ← h.2]
  · intro fields h3 h5
    simp [findAllNodesAndEdges, entriesLoop, entryStep_other _ fields h3 h5]

/-- Witness of the amended C4 on a row holding a node, a relationship, a
4-field entry and an empty entry. -/
theorem findAllNodesAndEdges_by_field_count_witness :
    findAllNodesAndEdges (Reply.arr [sampleNode 0 "writer" "Mark Twain",
        sampleEdge 0 "wrote" 0 1,
        Reply.arr [Reply.null, Reply.null, Reply.null, Reply.null], Reply.arr []])
      = Except.ok
        ([{ id := "0", title := "writer", subTitle := "", mainStat := "Mark Twain", arc := 1 }],
         [{ id := "0", source := "0", target := "1", mainStat := "wrote" }]) ∧
    ((1 = countRecords 3 (Reply.arr [sampleNode 0 "writer" "Mark Twain",
        sampleEdge 0 "wrote" 0 1,
        Reply.arr [Reply.null, Reply.null, Reply.null, Reply.null], Reply.arr []])) ∧
     (1 = countRecords 5 (Reply.arr [sampleNode 0 "writer" "Mark Twain",
        sampleEdge 0 "wrote" 0 1,
        Reply.arr [Reply.null, Reply.null, Reply.null, Reply.null], Reply.arr []]))) :=
  ⟨by decide,
   (findAllNodesAndEdges_by_field_count [sampleNode 0 "writer" "Mark Twain",
        sampleEdge 0 "wrote" 0 1,
        Reply.arr [Reply.null, Reply.null, Reply.null, Reply.null], Reply.arr []]
      [{ id := "0", title := "writer", subTitle := "", mainStat := "Mark Twain", arc := 1 }]
      [{ id := "0", source := "0", target := "1", mainStat := "wrote" }] (by decide)).1⟩

/-- C5, counterexample: an entry with two fields, a node record and a
relationship record, is not descended into; the row yields neither the node nor
the edge, while the same two records placed in the row itself yield both. -/
theorem findAllNodesAndEdges_nested_records_dropped :
    findAllNodesAndEdges
      (Reply.arr [Reply.arr [sampleNode 0 "writer" "Mark Twain", sampleEdge 0 "wrote" 0 1]])
      = Except.ok ([], []) ∧
    findAllNodesAndEdges
      (Reply.arr [sampleNode 0 "writer" "Mark Twain", sampleEdge 0 "wrote" 0 1])
      = Except.ok
        ([{ id := "0", title := "writer", subTitle := "", mainStat := "Mark Twain", arc := 1 }],
         [{ id := "0", source := "0", target := "1", mainStat := "wrote" }]) := by
  decide

/-- C5, amended: `findAllNodesAndEdges` does not descend into an entry that is
a sequence with a field count other than 3 and 5: whatever such an entry
contains, records included, the result of the row is the result of the row
without that entry. -/
theorem findAllNodesAndEdges_skips_other_sequences (before after fields : List Reply)
    (h3 : fields.length ≠ 3) (h5 : fields.length ≠ 5) :
    findAllNodesAndEdges (Reply.arr (before ++ Reply.arr fields :: after))
      = findAllNodesAndEdges (Reply.arr (before ++ after)) := by
  simp only [findAllNodesAndEdges, entriesLoop_append]
  cases entriesLoop ([], []) before with
  | error e => rfl
  | ok acc1 => simp [entriesLoop, entryStep_other acc1 fields h3 h5]

/-- Witness of the amended C5: a 2-field entry holding a node record and a
relationship record, between two node records of the row. -/
theorem findAllNodesAndEdges_skips_other_sequences_witness :
    findAllNodesAndEdges (Reply.arr ([sampleNode 0 "writer" "Mark Twain"] ++
        Reply.arr [sampleNode 1 "book" "Tom Sawyer", sampleEdge 0 "wrote" 0 1] ::
        [sampleNode 2 "book" "Huckleberry Finn"]))
      = findAllNodesAndEdges (Reply.arr ([sampleNode 0 "writer" "Mark Twain"] ++
        [sampleNode 2 "book" "Huckleberry Finn"])) :=
  findAllNodesAndEdges_skips_other_sequences [sampleNode 0 "writer" "Mark Twain"]
    [sampleNode 2 "book" "Huckleberry Finn"]
    [sampleNode 1 "book" "Tom Sawyer", sampleEdge 0 "wrote" 0 1] (by decide) (by decide)

/-- C6, counterexample: with header `["a"]` and the single result row
`[[nodeRecord], [edgeRecord], [nodeRecord]]`, each record wrapped in a
one-element sequence and the second node record repeating the id of the first,
both frames come back without any row. -/
theorem queryGraphQuery_wrapped_records_no_rows :
    (queryGraphQuery sampleQuery (stubClient
      [Reply.arr [Reply.bytes "a"],
       Reply.arr [Reply.arr [Reply.arr [sampleNode 0 "writer" "Mark Twain"],
                             Reply.arr [sampleEdge 0 "wrote" 0 1],
                             Reply.arr [sampleNode 0 "writer" "Mark Twain"]]]])).out
      = Except.ok { Frames := [nodesFrameOf [], edgesFrameOf []], Error := none } ∧
    (nodesFrameOf []).Rows = 0 ∧ (edgesFrameOf []).Rows = 0 := by
  decide

/-- C6, amended: given a graph reply with any header and the single result row
`[nodeRecord, edgeRecord, nodeRecord]`, the records being the entries of the
row, in which the second node record repeats the id of the first,
`queryGraphQuery` returns a "nodes" frame with exactly one row, that of the
first node record, and an "edges" frame with exactly one row; when each of the
three entries is instead wrapped in a one-element sequence, both frames have no
row. -/
theorem queryGraphQuery_round_trip (qm : queryModel) (client wrapping : redisClient)
    (header : Reply) (n1 e n2 : List Reply) (a b : nodeEntry) (c : edgeEntry)
    (hn1 : n1.length = 3) (he : e.length = 5) (hn2 : n2.length = 3)
    (ha : nodeOfFields n1 = Except.ok a) (hc : edgeOfFields e = Except.ok c)
    (hb : nodeOfFields n2 = Except.ok b) (hid : b.id = a.id)
    (hreply : client.RunFlatCmd Rcv.anySlice "GRAPH.QUERY" qm.Key [qm.Cypher]
        = Except.ok [header, Reply.arr [Reply.arr [Reply.arr n1, Reply.arr e, Reply.arr n2]]])
    (hwrapped : wrapping.RunFlatCmd Rcv.anySlice "GRAPH.QUERY" qm.Key [qm.Cypher]
        = Except.ok [header, Reply.arr [Reply.arr [Reply.arr [Reply.arr n1],
            Reply.arr [Reply.arr e], Reply.arr [Reply.arr n2]]]]) :
    ((queryGraphQuery qm client).out
        = Except.ok { Frames := [nodesFrameOf [a], edgesFrameOf [c]], Error := none } ∧
      (nodesFrameOf [a]).Rows = 1 ∧ (edgesFrameOf [c]).Rows = 1) ∧
    ((queryGraphQuery qm wrapping).out
        = Except.ok { Frames := [nodesFrameOf [], edgesFrameOf []], Error := none } ∧
      (nodesFrameOf []).Rows = 0 ∧ (edgesFrameOf []).Rows = 0) := by
  constructor
  · refine ⟨?_, rfl, rfl⟩
    rw [queryGraphQuery_out qm client _ hreply]
    have hrow : findAllNodesAndEdges (Reply.arr [Reply.arr n1, Reply.arr e, Reply.arr n2])
        = Except.ok ([a, b], [c]) := by
      simp [findAllNodesAndEdges, entriesLoop, entryStep, Reply.asSlice, bind, Except.bind,
        pure, Except.pure, hn1, he, hn2, ha, hb, hc]
    have := graphFrames_of_parts
      [header, Reply.arr [Reply.arr [Reply.arr n1, Reply.arr e, Reply.arr n2]]]
      [Reply.arr [Reply.arr n1, Reply.arr e, Reply.arr n2]] [([a, b], [c])] rfl
      (by simp [hrow])
    rw [this]
    simp [allNodes, allEdges, firstOccurrences, hid]
  · refine ⟨?_, rfl, rfl⟩
    rw [queryGraphQuery_out qm wrapping _ hwrapped]
    have := graphFrames_of_parts
      [header, Reply.arr [Reply.arr [Reply.arr [Reply.arr n1],
            Reply.arr [Reply.arr e], Reply.arr [Reply.arr n2]]]]
      [Reply.arr [Reply.arr [Reply.arr n1], Reply.arr [Reply.arr e], Reply.arr [Reply.arr n2]]]
      [([], [])] rfl (by simp [findAllNodesAndEdges, entriesLoop, entryStep, Reply.asSlice, bind,
        Except.bind, pure, Except.pure])
    rw [this]
    simp [allNodes, allEdges, firstOccurrences]

/-- Witness of the amended C6: node 0 twice, under two labels, around
relationship 0. -/
theorem queryGraphQuery_round_trip_witness :
    ((queryGraphQuery sampleQuery (stubClient [Reply.arr [Reply.bytes "a"],
        Reply.arr [Reply.arr [sampleNode 0 "writer" "Mark Twain", sampleEdge 0 "wrote" 0 1,
          sampleNode 0 "author" "Samuel Clemens"]]])).out
        = Except.ok { Frames := [nodesFrameOf [{ id := "0", title := "writer", subTitle := "",
                                                 mainStat := "Mark Twain", arc := 1 }],
                                 edgesFrameOf [{ id := "0", source := "0", target := "1",
                                                 mainStat := "wrote" }]], Error := none } ∧
      (nodesFrameOf [{ id := "0", title := "writer", subTitle := "",
                       mainStat := "Mark Twain", arc := 1 }]).Rows = 1 ∧
      (edgesFrameOf [{ id := "0", source := "0", target := "1", mainStat := "wrote" }]).Rows = 1) ∧
    ((queryGraphQuery sampleQuery (stubClient [Reply.arr [Reply.bytes "a"],
        Reply.arr [Reply.arr [Reply.arr [sampleNode 0 "writer" "Mark Twain"],
          Reply.arr [sampleEdge 0 "wrote" 0 1],
          Reply.arr [sampleNode 0 "author" "Samuel Clemens"]]]])).out
        = Except.ok { Frames := [nodesFrameOf [], edgesFrameOf []], Error := none } ∧
      (nodesFrameOf []).Rows = 0 ∧ (edgesFrameOf []).Rows = 0) :=
  queryGraphQuery_round_trip sampleQuery
    (stubClient [Reply.arr [Reply.bytes "a"],
        Reply.arr [Reply.arr [sampleNode 0 "writer" "Mark Twain", sampleEdge 0 "wrote" 0 1,
          sampleNode 0 "author" "Samuel Clemens"]]])
    (stubClient [Reply.arr [Reply.bytes "a"],
        Reply.arr [Reply.arr [Reply.arr [sampleNode 0 "writer" "Mark Twain"],
          Reply.arr [sampleEdge 0 "wrote" 0 1],
          Reply.arr [sampleNode 0 "author" "Samuel Clemens"]]]])
    (Reply.arr [Reply.bytes "a"])
    [Reply.arr [Reply.bytes "id", Reply.int64 0],
     Reply.arr [Reply.bytes "labels", Reply.arr [Reply.bytes "writer"]],
     Reply.arr [Reply.bytes "properties",
       Reply.arr [Reply.arr [Reply.bytes "name", Reply.bytes "Mark Twain"]]]]
    [Reply.arr [Reply.bytes "id", Reply.int64 0],
     Reply.arr [Reply.bytes "type", Reply.bytes "wrote"],
     Reply.arr [Reply.bytes "src_node", Reply.int64 0],
     Reply.arr [Reply.bytes "dest_node", Reply.int64 1],
     Reply.arr [Reply.bytes "properties", Reply.arr []]]
    [Reply.arr [Reply.bytes "id", Reply.int64 0],
     Reply.arr [Reply.bytes "labels", Reply.arr [Reply.bytes "author"]],
     Reply.arr [Reply.bytes "properties",
       Reply.arr [Reply.arr [Reply.bytes "name", Reply.bytes "Samuel Clemens"]]]]
    { id := "0", title := "writer", subTitle := "", mainStat := "Mark Twain", arc := 1 }
    { id := "0", title := "author", subTitle := "", mainStat := "Samuel Clemens", arc := 1 }
    { id := "0", source := "0", target := "1", mainStat := "wrote" }
    rfl rfl rfl (by decide) (by decide) (by decide) rfl rfl rfl

/-- C7: for every node record with a non-empty property list, the node emitted
by `findAllNodesAndEdges` takes its mainStat from the value of the first
property and from nothing else: the text of the bytes when that value is a byte
string, `FormatInt n 10` when it is the int64 `n`; the properties after the
first do not appear in the result. `FormatInt n 10` is a `-` when `n` is
negative followed by decimal digits whose value is the magnitude of `n`,
without a leading zero unless the text of the digits is `0`. -/
theorem findAllNodesAndEdges_mainStat (t0 t1 t2 key : Reply) (nodeID : Int)
    (labelTexts : List String) (rest : List Reply) :
    (∀ b : String,
      findAllNodesAndEdges (Reply.arr [Reply.arr [Reply.arr [t0, Reply.int64 nodeID],
          Reply.arr [t1, Reply.arr (labelTexts.map Reply.bytes)],
          Reply.arr [t2, Reply.arr (Reply.arr [key, Reply.bytes b] :: rest)]]])
        = Except.ok ([{ id := FormatInt nodeID 10, title := labelTexts.head?.getD "",
                        subTitle := "", mainStat := b, arc := 1 }], [])) ∧
    (∀ n : Int,
      findAllNodesAndEdges (Reply.arr [Reply.arr [Reply.arr [t0, Reply.int64 nodeID],
          Reply.arr [t1, Reply.arr (labelTexts.map Reply.bytes)],
          Reply.arr [t2, Reply.arr (Reply.arr [key, Reply.int64 n] :: rest)]]])
        = Except.ok ([{ id := FormatInt nodeID 10, title := labelTexts.head?.getD "",
                        subTitle := "", mainStat := FormatInt n 10, arc := 1 }], [])) ∧
    (∀ n : Int, ∃ ds : List Char,
      (FormatInt n 10).data = (if n < 0 then '-' :: ds else ds) ∧
      decimalValue ds = some n.natAbs ∧ (ds.head? = some '0' → ds = ['0'])) := by
  refine ⟨?_, ?_, FormatInt_decimal⟩
  · intro b
    cases labelTexts <;>
      simp [findAllNodesAndEdges, entriesLoop, entryStep, nodeOfFields, index, Reply.asSlice,
        Reply.asInt64, Reply.asBytes, bind, Except.bind, pure, Except.pure]
  · intro n
    cases labelTexts <;>
      simp [findAllNodesAndEdges, entriesLoop, entryStep, nodeOfFields, index, Reply.asSlice,
        Reply.asInt64, Reply.asBytes, bind, Except.bind, pure, Except.pure]

/-- C8: for every node record whose field 0 is `[tag, nodeID]`, whose field 1 is
`[tag, labelList]` with byte-string labels and whose field 2 is
`[tag, propertyList]` with an empty list or a first property that is a pair,
`findAllNodesAndEdges` emits one node with id `FormatInt nodeID 10`, title the
first label or the empty string, subTitle empty, arc 1, and mainStat empty when
the property list is empty; `queryGraphQuery` on the reply holding just that
record writes these values to the columns id, title, subTitle, mainStat, arc__
of the "nodes" frame, in that order. -/
theorem queryGraphQuery_node_columns (qm : queryModel) (client : redisClient)
    (header t0 t1 t2 : Reply) (nodeID : Int) (labelTexts : List String) (props : List Reply)
    (hprops : props = [] ∨ ∃ key v rest, props = Reply.arr [key, v] :: rest)
    (hreply : client.RunFlatCmd Rcv.anySlice "GRAPH.QUERY" qm.Key [qm.Cypher]
      = Except.ok [header, Reply.arr [Reply.arr [Reply.arr [Reply.arr [t0, Reply.int64 nodeID],
          Reply.arr [t1, Reply.arr (labelTexts.map Reply.bytes)],
          Reply.arr [t2, Reply.arr props]]]]]) :
    ∃ mainStat : String,
      findAllNodesAndEdges (Reply.arr [Reply.arr [Reply.arr [t0, Reply.int64 nodeID],
          Reply.arr [t1, Reply.arr (labelTexts.map Reply.bytes)],
          Reply.arr [t2, Reply.arr props]]])
        = Except.ok ([{ id := FormatInt nodeID 10, title := labelTexts.head?.getD "",
                        subTitle := "", mainStat := mainStat, arc := 1 }], []) ∧
      (props = [] → mainStat = "") ∧
      (queryGraphQuery qm client).out = Except.ok
        { Frames := [
            { Name := "nodes"
              Meta := some { PreferredVisualization := "nodeGraph" }
              Fields := [
                { Name := "id", Config := none, vector := Vector.strings [FormatInt nodeID 10] },
                { Name := "title", Config := none,
                  vector := Vector.strings [labelTexts.head?.getD ""] },
                { Name := "subTitle", Config := none, vector := Vector.strings [""] },
                { Name := "mainStat", Config := none, vector := Vector.strings [mainStat] },
                { Name := "arc__", Config := none, vector := Vector.int64s [1] }] },
            newFrameWithEdges]
          Error := none } := by
  have key : ∃ mainStat : String,
      findAllNodesAndEdges (Reply.arr [Reply.arr [Reply.arr [t0, Reply.int64 nodeID],
          Reply.arr [t1, Reply.arr (labelTexts.map Reply.bytes)],
          Reply.arr [t2, Reply.arr props]]])
        = Except.ok ([{ id := FormatInt nodeID 10, title := labelTexts.head?.getD "",
                        subTitle := "", mainStat := mainStat, arc := 1 }], []) ∧
      (props = [] → mainStat = "") := by
    rcases hprops with rfl | ⟨key, v, rest, rfl⟩
    · refine ⟨"", ?_, fun _ => rfl⟩
      cases labelTexts <;>
        simp [findAllNodesAndEdges, entriesLoop, entryStep, nodeOfFields, index, Reply.asSlice,
          Reply.asInt64, Reply.asBytes, bind, Except.bind, pure, Except.pure]
    · cases v with
      | bytes b =>
        refine ⟨b, ?_, fun h => by simp at h⟩
        cases labelTexts <;>
          simp [findAllNodesAndEdges, entriesLoop, entryStep, nodeOfFields, index, Reply.asSlice,
            Reply.asInt64, Reply.asBytes, bind, Except.bind, pure, Except.pure]
      | int64 n =>
        refine ⟨FormatInt n 10, ?_, fun h => by simp at h⟩
        cases labelTexts <;>
          simp [findAllNodesAndEdges, entriesLoop, entryStep, nodeOfFields, index, Reply.asSlice,
            Reply.asInt64, Reply.asBytes, bind, Except.bind, pure, Except.pure]
      | null =>
        refine ⟨"", ?_, fun h => by simp at h⟩
        cases labelTexts <;>
          simp [findAllNodesAndEdges, entriesLoop, entryStep, nodeOfFields, index, Reply.asSlice,
            Reply.asInt64, Reply.asBytes, bind, Except.bind, pure, Except.pure]
      | str s =>
        refine ⟨"", ?_, fun h => by simp at h⟩
        cases labelTexts <;>
          simp [findAllNodesAndEdges, entriesLoop, entryStep, nodeOfFields, index, Reply.asSlice,
            Reply.asInt64, Reply.asBytes, bind, Except.bind, pure, Except.pure]
      | arr xs =>
        refine ⟨"", ?_, fun h => by simp at h⟩
        cases labelTexts <;>
          simp [findAllNodesAndEdges, entriesLoop, entryStep, nodeOfFields, index, Reply.asSlice,
            Reply.asInt64, Reply.asBytes, bind, Except.bind, pure, Except.pure]
  obtain ⟨mainStat, hrow, hempty⟩ := key
  refine ⟨mainStat, hrow, hempty, ?_⟩
  rw [queryGraphQuery_out qm client _ hreply]
  have := graphFrames_of_parts
    [header, Reply.arr [Reply.arr [Reply.arr [Reply.arr [t0, Reply.int64 nodeID],
          Reply.arr [t1, Reply.arr (labelTexts.map Reply.bytes)],
          Reply.arr [t2, Reply.arr props]]]]]
    [Reply.arr [Reply.arr [Reply.arr [t0, Reply.int64 nodeID],
          Reply.arr [t1, Reply.arr (labelTexts.map Reply.bytes)],
          Reply.arr [t2, Reply.arr props]]]]
    [([⟨FormatInt nodeID 10, labelTexts.head?.getD "", "", mainStat, 1⟩], [])] rfl
    (by simp [hrow])
  rw [this]
  simp [allNodes, allEdges, firstOccurrences, nodesFrameOf, edgesFrameOf, newFrameWithEdges]

/-- Witness of C8: node 7 with two labels and no property. -/
theorem queryGraphQuery_node_columns_witness :
    ∃ mainStat : String,
      findAllNodesAndEdges (Reply.arr [Reply.arr [
          Reply.arr [Reply.bytes "id", Reply.int64 7],
          Reply.arr [Reply.bytes "labels", Reply.arr (["actor", "person"].map Reply.bytes)],
          Reply.arr [Reply.bytes "properties", Reply.arr []]]])
        = Except.ok ([{ id := FormatInt 7 10, title := ["actor", "person"].head?.getD "",
                        subTitle := "", mainStat := mainStat, arc := 1 }], []) ∧
      (([] : List Reply) = [] → mainStat = "") ∧
      (queryGraphQuery sampleQuery (stubClient [Reply.arr [Reply.bytes "a"],
        Reply.arr [Reply.arr [Reply.arr [
          Reply.arr [Reply.bytes "id", Reply.int64 7],
          Reply.arr [Reply.bytes "labels", Reply.arr (["actor", "person"].map Reply.bytes)],
          Reply.arr [Reply.bytes "properties", Reply.arr []]]]]])).out = Except.ok
        { Frames := [
            { Name := "nodes"
              Meta := some { PreferredVisualization := "nodeGraph" }
              Fields := [
                { Name := "id", Config := none, vector := Vector.strings [FormatInt 7 10] },
                { Name := "title", Config := none,
                  vector := Vector.strings [["actor", "person"].head?.getD ""] },
                { Name := "subTitle", Config := none, vector := Vector.strings [""] },
                { Name := "mainStat", Config := none, vector := Vector.strings [mainStat] },
                { Name := "arc__", Config := none, vector := Vector.int64s [1] }] },
            newFrameWithEdges]
          Error := none } :=
  queryGraphQuery_node_columns sampleQuery (stubClient [Reply.arr [Reply.bytes "a"],
        Reply.arr [Reply.arr [Reply.arr [
          Reply.arr [Reply.bytes "id", Reply.int64 7],
          Reply.arr [Reply.bytes "labels", Reply.arr (["actor", "person"].map Reply.bytes)],
          Reply.arr [Reply.bytes "properties", Reply.arr []]]]]])
    (Reply.arr [Reply.bytes "a"]) (Reply.bytes "id") (Reply.bytes "labels")
    (Reply.bytes "properties") 7 ["actor", "person"] [] (Or.inl rfl) rfl

/-- C9, counterexample: a 5-field entry whose fields 0, 2 and 3 are integers and
whose field 1 is a byte string yields no edge; the call faults on the type
assertion of field 0. -/
theorem findAllNodesAndEdges_flat_edge_fault :
    findAllNodesAndEdges (Reply.arr [Reply.arr [Reply.int64 7, Reply.bytes "wrote",
        Reply.int64 0, Reply.int64 1, Reply.arr []]])
      = Except.error Fault.typeAssertion := by
  decide

/-- C9, amended: for every 5-field entry whose fields 0 to 3 are pairs
`[tag, value]`, the values being the edge id as an integer, the relationship
type as a byte string, the source node id and the target node id as integers,
`findAllNodesAndEdges` yields one edge with id, source and target the base-10
texts of the three integers and mainStat the text of the type. -/
theorem findAllNodesAndEdges_edge (t0 t1 t2 t3 f4 : Reply) (edgeID src dest : Int)
    (type : String) :
    findAllNodesAndEdges (Reply.arr [Reply.arr [Reply.arr [t0, Reply.int64 edgeID],
        Reply.arr [t1, Reply.bytes type], Reply.arr [t2, Reply.int64 src],
        Reply.arr [t3, Reply.int64 dest], f4]])
      = Except.ok ([], [{ id := FormatInt edgeID 10, source := FormatInt src 10,
                          target := FormatInt dest 10, mainStat := type }]) := by
  simp [findAllNodesAndEdges, entriesLoop, entryStep, edgeOfFields, index, Reply.asSlice,
    Reply.asInt64, Reply.asBytes, bind, Except.bind, pure, Except.pure]

/-! ## Claims about `query` -/

/-- C10: when the request body fails to unmarshal, `query` returns the response
whose error is the unmarshal error and whose frame list is empty, and makes no
call on the store client. -/
theorem query_unmarshal_error (ext : Externals) (q : DataQuery) (client : redisClient)
    (err : GoError) (h : ext.Unmarshal q.JSON = Except.error err) :
    (query ext q client).response = { Frames := [], Error := some err } ∧
    (query ext q client).calls = [] := by
  simp [query, h]

/-- Witness of C10: a truncated request body. -/
theorem query_unmarshal_error_witness :
    sampleExternals.Unmarshal "\x7b" = Except.error (GoError.plain "unexpected end of JSON input") ∧
    (query sampleExternals { JSON := "\x7b", From := Time.Unix 0, To := Time.Unix 0 }
        (stubClient sampleReply)).response
      = { Frames := [], Error := some (GoError.plain "unexpected end of JSON input") } ∧
    (query sampleExternals { JSON := "\x7b", From := Time.Unix 0, To := Time.Unix 0 }
        (stubClient sampleReply)).calls = [] :=
  ⟨by decide,
   query_unmarshal_error sampleExternals { JSON := "\x7b", From := Time.Unix 0, To := Time.Unix 0 }
     (stubClient sampleReply) (GoError.plain "unexpected end of JSON input") (by decide)⟩

/-! ## The dispatcher -/

theorem dispatch_custom (ext : Externals) (from_ to_ : Int) (qm : queryModel)
    (client : redisClient) (hq : qm.Query ≠ "") :
    dispatch ext from_ to_ qm client = some (ext.queryCustomCommand qm client) := by
  unfold dispatch
  rw [if_pos hq]

theorem lookup_commandTable_none (ext : Externals) (from_ to_ : Int) (command : String)
    (h : command ∉ knownCommands) : (commandTable ext from_ to_).lookup command = none := by
  have hb : ∀ s : String, s ∈ knownCommands → (command == s) = false := by
    intro s hs
    exact beq_eq_false_iff_ne.mpr (fun heq => h (heq ▸ hs))
  simp only [commandTable, List.lookup]
  repeat (rw [hb _ (by simp [knownCommands])]; dsimp only)
  rw [hb _ (by simp [knownCommands])]

theorem dispatch_table (ext : Externals) (from_ to_ : Int) (qm : queryModel)
    (client : redisClient) (hq : qm.Query = "") :
    dispatch ext from_ to_ qm client
      = ((commandTable ext from_ to_).lookup qm.Command).map (fun routine => routine qm client) := by
  unfold dispatch
  rw [if_neg (by simp [hq])]
  split
  case h_33 =>
    rw [lookup_commandTable_none]
    · rfl
    · simp only [knownCommands, List.mem_cons, List.mem_singleton, List.mem_nil_iff, not_or]
      simp_all
  all_goals simp_all [commandTable, List.lookup]

theorem lookup_commandTable_isSome (ext : Externals) (from_ to_ : Int) (command : String)
    (h : command ∈ knownCommands) :
    ((commandTable ext from_ to_).lookup command).isSome = true := by
  simp only [knownCommands, List.mem_cons, List.mem_singleton, List.mem_nil_iff, or_false] at h
  rcases h with h | h | h | h | h | h | h | h | h | h | h | h | h | h | h | h | h | h | h | h | h |
    h | h | h | h | h | h | h | h | h | h | h <;> subst h <;> rfl

theorem query_of_dispatch_none (ext : Externals) (q : DataQuery) (client : redisClient)
    (qm : queryModel) (hparse : ext.Unmarshal q.JSON = Except.ok qm)
    (hd : dispatch ext (Int.tdiv q.From.UnixNano 1000000) (Int.tdiv q.To.UnixNano 1000000)
      qm client = none) :
    (query ext q client).response = emptyResponse ∧ (query ext q client).calls = [] := by
  simp [query, hparse, hd, emptyResponse]

theorem query_of_dispatch_some (ext : Externals) (q : DataQuery) (client : redisClient)
    (qm : queryModel) (r : Result) (hparse : ext.Unmarshal q.JSON = Except.ok qm)
    (hd : dispatch ext (Int.tdiv q.From.UnixNano 1000000) (Int.tdiv q.To.UnixNano 1000000)
      qm client = some r) :
    (query ext q client).response
        = (match r.out with
           | Except.ok response => response
           | Except.error _ => emptyResponse) ∧
      (query ext q client).calls = r.calls := by
  simp only [query, hparse, hd, emptyResponse]
  cases r.out <;> simp

theorem dispatch_graph_query (ext : Externals) (from_ to_ : Int) (qm : queryModel)
    (client : redisClient) (hq : qm.Query = "") (hc : qm.Command = "graph.query") :
    dispatch ext from_ to_ qm client = some (queryGraphQuery qm client) := by
  rw [dispatch_table ext from_ to_ qm client hq, hc]
  rfl

theorem dispatch_graph_slowlog (ext : Externals) (from_ to_ : Int) (qm : queryModel)
    (client : redisClient) (hq : qm.Query = "") (hc : qm.Command = "graph.slowlog") :
    dispatch ext from_ to_ qm client = some (queryGraphSlowlog ext.ParseFloat qm client) := by
  rw [dispatch_table ext from_ to_ qm client hq, hc]
  rfl

/-! ## Faults of the graph decoder -/

theorem entryStep_scalar (acc : List nodeEntry × List edgeEntry) (entry : Reply)
    (h : entry.isSlice = false) : entryStep acc entry = Except.error Fault.typeAssertion := by
  cases entry <;> simp_all [entryStep, Reply.asSlice, Reply.isSlice, bind, Except.bind]

theorem entryStep_scalar_first_field (acc : List nodeEntry × List edgeEntry) (x f1 f2 : Reply)
    (h : x.isSlice = false) :
    entryStep acc (Reply.arr [x, f1, f2]) = Except.error Fault.typeAssertion := by
  cases x <;>
    simp_all [entryStep, nodeOfFields, index, Reply.asSlice, Reply.isSlice, bind, Except.bind]

theorem entriesLoop_fault (before after : List Reply) (entry : Reply)
    (h : ∀ acc, ∃ fault, entryStep acc entry = Except.error fault) :
    ∀ acc, ∃ fault, entriesLoop acc (before ++ entry :: after) = Except.error fault := by
  induction before with
  | nil =>
    intro acc
    obtain ⟨fault, hf⟩ := h acc
    exact ⟨fault, by simp [entriesLoop, hf]⟩
  | cons b before ih =>
    intro acc
    simp only [List.cons_append, entriesLoop]
    cases entryStep acc b with
    | error e => exact ⟨e, rfl⟩
    | ok acc1 => exact ih acc1

theorem rowsLoop_fault (before after : List Reply) (row : Reply) (fault : Fault)
    (h : findAllNodesAndEdges row = Except.error fault) :
    ∀ st, ∃ fault1, rowsLoop st (before ++ row :: after) = Except.error fault1 := by
  induction before with
  | nil =>
    intro st
    exact ⟨fault, by simp [rowsLoop, h]⟩
  | cons b before ih =>
    intro st
    simp only [List.cons_append, rowsLoop]
    cases findAllNodesAndEdges b with
    | error e => exact ⟨e, rfl⟩
    | ok part =>
      obtain ⟨ns, es⟩ := part
      simp only
      cases appendNodes st ns with
      | error e => exact ⟨e, rfl⟩
      | ok st1 =>
        simp only
        cases appendEdges st1 es with
        | error e => exact ⟨e, rfl⟩
        | ok st2 => exact ih st2

theorem graphFrames_fault_of_row (header : Reply) (more before after : List Reply) (row : Reply)
    (fault : Fault) (h : findAllNodesAndEdges row = Except.error fault) :
    ∃ fault1, graphFrames (header :: Reply.arr (before ++ row :: after) :: more)
      = Except.error fault1 := by
  obtain ⟨fault1, hf⟩ := rowsLoop_fault before after row fault h initialState
  exact ⟨fault1, by simp [graphFrames, index, Reply.asSlice, bind, Except.bind, hf]⟩

theorem graphFrames_fault_of_short (result : List Reply) (h : result.length < 2) :
    graphFrames result = Except.error Fault.indexOutOfRange := by
  have : result[1]? = none := by
    rw [List.getElem?_eq_none_iff]
    omega
  simp [graphFrames, index, this, bind, Except.bind]

/-! ## Reading decimal text -/

theorem foldl_digit_none (cs : List Char) :
    cs.foldl (fun acc c =>
      match acc with
      | none => none
      | some n => if c.isDigit then some (10 * n + (c.toNat - 48)) else none)
      (none : Option Nat) = none := by
  induction cs with
  | nil => rfl
  | cons c cs ih => simpa using ih

theorem decimalValue_head_isDigit (c : Char) (cs : List Char) (n : Nat)
    (h : decimalValue (c :: cs) = some n) : c.isDigit = true := by
  by_contra hc
  have hf : c.isDigit = false := by simpa using hc
  simp only [decimalValue, List.foldl_cons, hf] at h
  have h0 := foldl_digit_none cs
  simp only [Bool.false_eq_true, if_false] at h
  rw [h0] at h
  cases h

theorem foldl_digit_le (cs : List Char) :
    ∀ k v : Nat, cs.foldl (fun acc c =>
      match acc with
      | none => none
      | some n => if c.isDigit then some (10 * n + (c.toNat - 48)) else none) (some k) = some v →
      k ≤ v := by
  induction cs with
  | nil =>
    intro k v h
    simp only [List.foldl_nil, Option.some.injEq] at h
    omega
  | cons c cs ih =>
    intro k v h
    simp only [List.foldl_cons] at h
    by_cases hc : c.isDigit = true
    · simp only [hc, if_true] at h
      have := ih _ v h
      omega
    · have hf : c.isDigit = false := by simpa using hc
      simp only [hf, Bool.false_eq_true, if_false] at h
      rw [foldl_digit_none] at h
      cases h

theorem parseUintLoop_of_foldl (cs : List Char) :
    ∀ k v : Nat, cs.foldl (fun acc c =>
      match acc with
      | none => none
      | some n => if c.isDigit then some (10 * n + (c.toNat - 48)) else none) (some k) = some v →
      v ≤ maxUint64 → parseUintLoop k cs = UintResult.value v := by
  induction cs with
  | nil =>
    intro k v h _
    simp only [List.foldl_nil, Option.some.injEq] at h
    simp [parseUintLoop, h]
  | cons c cs ih =>
    intro k v h hv
    simp only [List.foldl_cons] at h
    by_cases hc : c.isDigit = true
    · simp only [hc, if_true] at h
      have hle := foldl_digit_le cs _ v h
      have h1 : ¬ (k ≥ maxUint64 / 10 + 1) := by
        simp only [maxUint64] at hv ⊢
        omega
      have h2 : ¬ (10 * k + (c.toNat - 48) > maxUint64) := by omega
      simp only [parseUintLoop, hc, Bool.true_eq_false, if_false, h1, h2]
      exact ih _ v h hv
    · have hf : c.isDigit = false := by simpa using hc
      simp only [hf, Bool.false_eq_true, if_false] at h
      rw [foldl_digit_none] at h
      cases h

theorem ParseUint_toDigits (n : Nat) (h : n ≤ maxUint64) :
    ParseUint (Nat.toDigits 10 n) = UintResult.value n := by
  obtain ⟨hv, _⟩ := decimalValue_toDigits n
  cases hds : Nat.toDigits 10 n with
  | nil => rw [hds] at hv; simp [decimalValue] at hv
  | cons c cs =>
    rw [hds] at hv
    simp only [decimalValue] at hv
    simp only [ParseUint]
    exact parseUintLoop_of_foldl (c :: cs) 0 n hv h

theorem ParseInt_FormatInt (i : Int) (hlo : -2 ^ 63 ≤ i) (hhi : i < 2 ^ 63) :
    ParseInt (FormatInt i 10) = i := by
  cases i with
  | ofNat n =>
    have hn : n < 2 ^ 63 := by
      have : (n : Int) < 2 ^ 63 := hhi
      exact_mod_cast this
    have hu := ParseUint_toDigits n (by simp only [maxUint64]; omega)
    obtain ⟨hv, _⟩ := decimalValue_toDigits n
    have hdata : (FormatInt (Int.ofNat n) 10).data = Nat.toDigits 10 n := rfl
    cases hds : Nat.toDigits 10 n with
    | nil => rw [hds] at hv; simp [decimalValue] at hv
    | cons c cs =>
      rw [hds] at hv hu
      have hc := decimalValue_head_isDigit c cs n hv
      have h1 : c ≠ '-' := by rintro rfl; revert hc; decide
      have h2 : c ≠ '+' := by rintro rfl; revert hc; decide
      have hb : (c == '-') = false := by simpa using h1
      simp only [ParseInt, hdata, hds, h1, h2, or_self, if_false, hu, hb, clampInt64]
      simp
      intro hbig
      omega
  | negSucc m =>
    have hm : m + 1 ≤ 2 ^ 63 := by
      have h := hlo
      rw [Int.negSucc_eq] at h
      have : ((m : Int) + 1) ≤ 2 ^ 63 := by linarith
      exact_mod_cast this
    have hu := ParseUint_toDigits (m + 1) (by simp only [maxUint64]; omega)
    have hdata : (FormatInt (Int.negSucc m) 10).data = '-' :: Nat.toDigits 10 (m + 1) := rfl
    simp only [ParseInt, hdata, or_true, if_true, hu, clampInt64, beq_self_eq_true]
    simp [Int.negSucc_eq]
    intro hbig
    omega

/-! ## Claims about faults, errors and the dispatcher -/

/-- C11: when the request parses and the selected decoding routine faults,
`query` recovers and returns the empty response, zero frames and no error; this
is so for a `graph.query` reply with fewer than two top-level elements and for
a reply in which some result row holds a 3-field entry whose first field is a
scalar, whatever result rows come before that row and were already turned into
node and edge rows. -/
theorem query_contains_fault (ext : Externals) (q : DataQuery) (client : redisClient)
    (qm : queryModel) (hparse : ext.Unmarshal q.JSON = Except.ok qm) :
    (∀ (r : Result) (fault : Fault),
      dispatch ext (Int.tdiv q.From.UnixNano 1000000) (Int.tdiv q.To.UnixNano 1000000) qm client
        = some r →
      r.out = Except.error fault → (query ext q client).response = emptyResponse) ∧
    (qm.Query = "" → qm.Command = "graph.query" →
      ∀ result : List Reply,
        client.RunFlatCmd Rcv.anySlice "GRAPH.QUERY" qm.Key [qm.Cypher] = Except.ok result →
        (result.length < 2 → (query ext q client).response = emptyResponse) ∧
        (∀ (header x f1 f2 : Reply) (more before after entriesBefore entriesAfter : List Reply),
          result = header :: Reply.arr (before ++
            Reply.arr (entriesBefore ++ Reply.arr [x, f1, f2] :: entriesAfter) :: after) :: more →
          x.isSlice = false → (query ext q client).response = emptyResponse)) := by
  have key : ∀ (r : Result) (fault : Fault),
      dispatch ext (Int.tdiv q.From.UnixNano 1000000) (Int.tdiv q.To.UnixNano 1000000) qm client
        = some r →
      r.out = Except.error fault → (query ext q client).response = emptyResponse := by
    intro r fault hd hf
    rw [(query_of_dispatch_some ext q client qm r hparse hd).1, hf]
  refine ⟨key, ?_⟩
  intro hq hc result hreply
  have hd := dispatch_graph_query ext (Int.tdiv q.From.UnixNano 1000000)
    (Int.tdiv q.To.UnixNano 1000000) qm client hq hc
  have hout := queryGraphQuery_out qm client result hreply
  constructor
  · intro hshort
    exact key _ Fault.indexOutOfRange hd (by rw [hout, graphFrames_fault_of_short result hshort])
  · intro header x f1 f2 more before after entriesBefore entriesAfter hres hx
    obtain ⟨fault, hrow⟩ := entriesLoop_fault entriesBefore entriesAfter (Reply.arr [x, f1, f2])
      (fun acc => ⟨_, entryStep_scalar_first_field acc x f1 f2 hx⟩) ([], [])
    obtain ⟨fault1, hg⟩ := graphFrames_fault_of_row header more before after
      (Reply.arr (entriesBefore ++ Reply.arr [x, f1, f2] :: entriesAfter)) fault hrow
    exact key _ fault1 hd (by rw [hout, hres, hg])

/-- Witness of C11: the sound first row of `faultyReply` alone gives one node
row and one edge row; with the faulty second row after it the response is
empty. -/
theorem query_contains_fault_witness :
    (queryGraphQuery sampleQuery (stubClient [Reply.arr [Reply.bytes "a"],
        Reply.arr [Reply.arr [sampleNode 0 "writer" "Mark Twain", sampleEdge 0 "wrote" 0 1]]])).out
      = Except.ok { Frames := [nodesFrameOf [{ id := "0", title := "writer", subTitle := "",
                                               mainStat := "Mark Twain", arc := 1 }],
                               edgesFrameOf [{ id := "0", source := "0", target := "1",
                                               mainStat := "wrote" }]], Error := none } ∧
    (query sampleExternals sampleRequest (stubClient faultyReply)).response = emptyResponse ∧
    (query sampleExternals sampleRequest (stubClient [Reply.arr [Reply.bytes "a"]])).response
      = emptyResponse :=
  ⟨by decide,
   (((query_contains_fault sampleExternals sampleRequest (stubClient faultyReply) sampleQuery
      rfl).2 rfl rfl faultyReply rfl).2 (Reply.arr [Reply.bytes "a"]) (Reply.int64 1)
      (Reply.arr []) (Reply.arr []) []
      [Reply.arr [sampleNode 0 "writer" "Mark Twain", sampleEdge 0 "wrote" 0 1]] [] [] [] rfl rfl),
   (((query_contains_fault sampleExternals sampleRequest
      (stubClient [Reply.arr [Reply.bytes "a"]]) sampleQuery rfl).2 rfl rfl
      [Reply.arr [Reply.bytes "a"]] rfl).1 (by decide))⟩

theorem asResp2_eq_find (e : GoError) :
    asResp2 e = (match (errorChain e).find? GoError.isResp2 with
                 | some (GoError.resp2 inner) => some inner
                 | _ => none) := by
  induction e with
  | plain msg => simp [asResp2, errorChain, GoError.isResp2]
  | wrap msg inner ih => simpa [asResp2, errorChain, GoError.isResp2] using ih
  | resp2 inner _ => simp [asResp2, errorChain, GoError.isResp2]

theorem errorHandler_some (r : DataResponse) (e : GoError) :
    ∃ e1, errorHandler r (some e) = { Frames := r.Frames, Error := some e1 } := by
  simp only [errorHandler]
  cases asResp2 e with
  | none => exact ⟨e, rfl⟩
  | some inner => exact ⟨inner, rfl⟩

/-- C12: `errorHandler r e` returns the frames of `r` unchanged; its error field
is the field `E` of the first store-protocol error `resp2.Error` in the chain of
`e` when the chain holds one, and `e` itself otherwise (a nil `e` included). -/
theorem errorHandler_normalises (r : DataResponse) (e : GoError) :
    (errorHandler r (some e)).Frames = r.Frames ∧
    (∀ inner : GoError, (errorChain e).find? GoError.isResp2 = some (GoError.resp2 inner) →
      (errorHandler r (some e)).Error = some inner) ∧
    ((errorChain e).find? GoError.isResp2 = none → (errorHandler r (some e)).Error = some e) ∧
    errorHandler r none = { Frames := r.Frames, Error := none } := by
  have h := asResp2_eq_find e
  refine ⟨?_, ?_, ?_, rfl⟩
  · obtain ⟨e1, h1⟩ := errorHandler_some r e
    rw [h1]
  · intro inner hf
    rw [hf] at h
    simp only [errorHandler, h]
  · intro hf
    rw [hf] at h
    simp only [errorHandler, h]

/-- Witness of C12: a store-protocol error under two layers of wrapping is
unwrapped to its field `E`; a transport error is passed through. -/
theorem errorHandler_normalises_witness :
    (errorHandler sampleResponse (some (GoError.wrap "run" (GoError.wrap "cmd"
        (GoError.resp2 (GoError.plain "ERR unknown command")))))).Error
      = some (GoError.plain "ERR unknown command") ∧
    (errorHandler sampleResponse (some (GoError.wrap "dial" (GoError.plain "connection refused")))).Error
      = some (GoError.wrap "dial" (GoError.plain "connection refused")) ∧
    (errorHandler sampleResponse (some (GoError.plain "EOF"))).Frames = sampleResponse.Frames :=
  ⟨(errorHandler_normalises sampleResponse (GoError.wrap "run" (GoError.wrap "cmd"
      (GoError.resp2 (GoError.plain "ERR unknown command"))))).2.1
      (GoError.plain "ERR unknown command") (by decide),
   (errorHandler_normalises sampleResponse
      (GoError.wrap "dial" (GoError.plain "connection refused"))).2.2.1 (by decide),
   (errorHandler_normalises sampleResponse (GoError.plain "EOF")).1⟩

/-- C13: the response returned by `queryGraphQuery`, `queryGraphSlowlog` or
`queryKeyCommand` never carries both an error and frames. When the client call
fails, the routine returns the response with the normalised error and zero
frames; when the call succeeds, a response that is returned has no error and
holds the frames "nodes" then "edges" for `queryGraphQuery` and exactly one
frame for the other two, and `queryKeyCommand` always returns one. -/
theorem routines_error_or_frames (createFrameValue : String → String → Frame)
    (parseFloat : String → float64) (qm : queryModel) (client : redisClient) :
    ((∀ err, client.RunFlatCmd Rcv.anySlice "GRAPH.QUERY" qm.Key [qm.Cypher] = Except.error err →
        (queryGraphQuery qm client).out = Except.ok (errorHandler emptyResponse (some err)) ∧
        (errorHandler emptyResponse (some err)).Frames = [] ∧
        (errorHandler emptyResponse (some err)).Error ≠ none) ∧
     (∀ result resp,
        client.RunFlatCmd Rcv.anySlice "GRAPH.QUERY" qm.Key [qm.Cypher] = Except.ok result →
        (queryGraphQuery qm client).out = Except.ok resp →
        resp.Error = none ∧ resp.Frames.map (fun f => f.Name) = ["nodes", "edges"])) ∧
    ((∀ err, client.RunFlatCmd Rcv.stringSlices "GRAPH.SLOWLOG" qm.Key [] = Except.error err →
        (queryGraphSlowlog parseFloat qm client).out
          = Except.ok (errorHandler emptyResponse (some err))) ∧
     (∀ result resp,
        client.RunFlatCmd Rcv.stringSlices "GRAPH.SLOWLOG" qm.Key [] = Except.ok result →
        (queryGraphSlowlog parseFloat qm client).out = Except.ok resp →
        resp.Error = none ∧ resp.Frames.length = 1)) ∧
    ((∀ err, client.RunCmd Rcv.string qm.Command [qm.Key] = Except.error err →
        (queryKeyCommand createFrameValue qm client).out
          = Except.ok (errorHandler emptyResponse (some err))) ∧
     (∀ value, client.RunCmd Rcv.string qm.Command [qm.Key] = Except.ok value →
        (queryKeyCommand createFrameValue qm client).out
          = Except.ok { Frames := [createFrameValue qm.Key value], Error := none })) ∧
    (∀ resp, ((queryGraphQuery qm client).out = Except.ok resp ∨
              (queryGraphSlowlog parseFloat qm client).out = Except.ok resp ∨
              (queryKeyCommand createFrameValue qm client).out = Except.ok resp) →
        resp.Error = none ∨ resp.Frames = []) := by
  have hfr : ∀ err, (errorHandler emptyResponse (some err)).Frames = [] := by
    intro err
    obtain ⟨e1, h1⟩ := errorHandler_some emptyResponse err
    rw [h1]; rfl
  have hne : ∀ err, (errorHandler emptyResponse (some err)).Error ≠ none := by
    intro err
    obtain ⟨e1, h1⟩ := errorHandler_some emptyResponse err
    rw [h1]; simp
  have g1 : ∀ err, client.RunFlatCmd Rcv.anySlice "GRAPH.QUERY" qm.Key [qm.Cypher]
      = Except.error err →
      (queryGraphQuery qm client).out = Except.ok (errorHandler emptyResponse (some err)) := by
    intro err h
    simp only [queryGraphQuery, emptyResponse]
    split
    · next err1 he => rw [h] at he; cases he; rfl
    · next res he => rw [h] at he; cases he
  have g2 : ∀ result resp,
      client.RunFlatCmd Rcv.anySlice "GRAPH.QUERY" qm.Key [qm.Cypher] = Except.ok result →
      (queryGraphQuery qm client).out = Except.ok resp →
      resp.Error = none ∧ resp.Frames.map (fun f => f.Name) = ["nodes", "edges"] := by
    intro result resp h hdone
    rw [queryGraphQuery_out qm client result h] at hdone
    obtain ⟨rows, parts, _, _, rfl⟩ := graphFrames_ok result resp hdone
    exact ⟨rfl, rfl⟩
  have s1 : ∀ err, client.RunFlatCmd Rcv.stringSlices "GRAPH.SLOWLOG" qm.Key [] = Except.error err →
      (queryGraphSlowlog parseFloat qm client).out
        = Except.ok (errorHandler emptyResponse (some err)) := by
    intro err h
    simp only [queryGraphSlowlog, emptyResponse]
    split
    · next err1 he => rw [h] at he; cases he; rfl
    · next res he => rw [h] at he; cases he
  have s2 : ∀ result resp,
      client.RunFlatCmd Rcv.stringSlices "GRAPH.SLOWLOG" qm.Key [] = Except.ok result →
      (queryGraphSlowlog parseFloat qm client).out = Except.ok resp →
      resp.Error = none ∧ resp.Frames.length = 1 := by
    intro result resp h hdone
    simp only [queryGraphSlowlog] at hdone
    split at hdone
    · next err1 he => rw [h] at he; cases he
    · next res he =>
      simp only at hdone
      cases hl : slowlogLoop parseFloat newFrameSlowlog res with
      | error e => rw [hl] at hdone; cases hdone
      | ok frame =>
        rw [hl] at hdone
        simp only [Except.map, Except.ok.injEq] at hdone
        subst hdone
        exact ⟨rfl, rfl⟩
  have k1 : ∀ err, client.RunCmd Rcv.string qm.Command [qm.Key] = Except.error err →
      (queryKeyCommand createFrameValue qm client).out
        = Except.ok (errorHandler emptyResponse (some err)) := by
    intro err h
    simp only [queryKeyCommand, emptyResponse]
    split
    · next err1 he => rw [h] at he; cases he; rfl
    · next res he => rw [h] at he; cases he
  have k2 : ∀ value, client.RunCmd Rcv.string qm.Command [qm.Key] = Except.ok value →
      (queryKeyCommand createFrameValue qm client).out
        = Except.ok { Frames := [createFrameValue qm.Key value], Error := none } := by
    intro value h
    simp only [queryKeyCommand]
    split
    · next err1 he => rw [h] at he; cases he
    · next res he => rw [h] at he; cases he; rfl
  refine ⟨⟨fun err h => ⟨g1 err h, hfr err, hne err⟩, g2⟩, ⟨s1, s2⟩, ⟨k1, k2⟩, ?_⟩
  intro resp h
  rcases h with h | h | h
  · cases hc : client.RunFlatCmd Rcv.anySlice "GRAPH.QUERY" qm.Key [qm.Cypher] with
    | error err =>
      rw [g1 err hc] at h
      cases h
      exact Or.inr (hfr err)
    | ok result => exact Or.inl (g2 result resp hc h).1
  · cases hc : client.RunFlatCmd Rcv.stringSlices "GRAPH.SLOWLOG" qm.Key [] with
    | error err =>
      rw [s1 err hc] at h
      cases h
      exact Or.inr (hfr err)
    | ok result => exact Or.inl (s2 result resp hc h).1
  · cases hc : client.RunCmd Rcv.string qm.Command [qm.Key] with
    | error err =>
      rw [k1 err hc] at h
      cases h
      exact Or.inr (hfr err)
    | ok value =>
      rw [k2 value hc] at h
      cases h
      exact Or.inl rfl

/-- Witness of C13: a failing client gives the unwrapped store error and no
frame; the sample reply gives the two frames and no error. -/
theorem routines_error_or_frames_witness :
    ((queryGraphQuery sampleQuery (failingClient (GoError.resp2 (GoError.plain "ERR syntax")))).out
        = Except.ok (errorHandler emptyResponse (some (GoError.resp2 (GoError.plain "ERR syntax")))) ∧
      (errorHandler emptyResponse (some (GoError.resp2 (GoError.plain "ERR syntax")))).Frames = [] ∧
      (errorHandler emptyResponse (some (GoError.resp2 (GoError.plain "ERR syntax")))).Error
        ≠ none) ∧
    (sampleResponse.Error = none ∧
      sampleResponse.Frames.map (fun f => f.Name) = ["nodes", "edges"]) :=
  ⟨(routines_error_or_frames sampleExternals.createFrameValue sampleParseFloat sampleQuery
      (failingClient (GoError.resp2 (GoError.plain "ERR syntax")))).1.1
      (GoError.resp2 (GoError.plain "ERR syntax")) rfl,
   (routines_error_or_frames sampleExternals.createFrameValue sampleParseFloat sampleQuery
      (stubClient sampleReply)).1.2 sampleReply sampleResponse rfl (by decide)⟩

/-- C14: when the request parses, its raw query text is empty and its command
name is none of the names of the fixed mapping, `query` returns the empty
response and makes no call on the store client. -/
theorem query_unknown_command (ext : Externals) (q : DataQuery) (client : redisClient)
    (qm : queryModel) (hparse : ext.Unmarshal q.JSON = Except.ok qm)
    (hq : qm.Query = "") (hc : qm.Command ∉ knownCommands) :
    (query ext q client).response = emptyResponse ∧ (query ext q client).calls = [] := by
  apply query_of_dispatch_none ext q client qm hparse
  rw [dispatch_table _ _ _ qm client hq, lookup_commandTable_none _ _ _ _ hc]
  rfl

/-- Witness of C14: the command name `graph.explain` is not in the mapping. -/
theorem query_unknown_command_witness :
    (query { sampleExternals with
             Unmarshal := fun _ => Except.ok { sampleQuery with Command := "graph.explain" } }
        sampleRequest (stubClient sampleReply)).response = emptyResponse ∧
    (query { sampleExternals with
             Unmarshal := fun _ => Except.ok { sampleQuery with Command := "graph.explain" } }
        sampleRequest (stubClient sampleReply)).calls = [] :=
  query_unknown_command
    { sampleExternals with
      Unmarshal := fun _ => Except.ok { sampleQuery with Command := "graph.explain" } }
    sampleRequest (stubClient sampleReply) { sampleQuery with Command := "graph.explain" }
    rfl rfl (by decide)

/-- C15: for every parsed request exactly one routine is selected. When the raw
query text is non-empty it is `queryCustomCommand`, whatever the command name:
the calls of `query` are the calls of that routine and the response is its
response (the empty response if it faults). When the text is empty it is the
routine the table gives for the command name and no other: the calls and the
response of `query` are those of that routine, and there is no call at all
when the table has no routine for the name. -/
theorem query_single_path (ext : Externals) (q : DataQuery) (client : redisClient)
    (qm : queryModel) (hparse : ext.Unmarshal q.JSON = Except.ok qm) :
    (qm.Query ≠ "" →
      (query ext q client).calls = (ext.queryCustomCommand qm client).calls ∧
      (query ext q client).response
        = (match (ext.queryCustomCommand qm client).out with
           | Except.ok response => response
           | Except.error _ => emptyResponse)) ∧
    (qm.Query = "" →
      (∀ routine : queryModel → redisClient → Result,
        (commandTable ext (Int.tdiv q.From.UnixNano 1000000)
          (Int.tdiv q.To.UnixNano 1000000)).lookup qm.Command = some routine →
        (query ext q client).calls = (routine qm client).calls ∧
        (query ext q client).response
          = (match (routine qm client).out with
             | Except.ok response => response
             | Except.error _ => emptyResponse)) ∧
      ((commandTable ext (Int.tdiv q.From.UnixNano 1000000)
          (Int.tdiv q.To.UnixNano 1000000)).lookup qm.Command = none →
        (query ext q client).calls = [] ∧ (query ext q client).response = emptyResponse)) := by
  constructor
  · intro hq
    have hd := dispatch_custom ext (Int.tdiv q.From.UnixNano 1000000)
      (Int.tdiv q.To.UnixNano 1000000) qm client hq
    obtain ⟨h1, h2⟩ := query_of_dispatch_some ext q client qm _ hparse hd
    exact ⟨h2, h1⟩
  · intro hq
    have hd := dispatch_table ext (Int.tdiv q.From.UnixNano 1000000)
      (Int.tdiv q.To.UnixNano 1000000) qm client hq
    constructor
    · intro routine hl
      rw [hl] at hd
      obtain ⟨h1, h2⟩ := query_of_dispatch_some ext q client qm _ hparse hd
      exact ⟨h2, h1⟩
    · intro hl
      rw [hl] at hd
      obtain ⟨h1, h2⟩ := query_of_dispatch_none ext q client qm hparse hd
      exact ⟨h2, h1⟩

/-- Witness of C15: with the raw query text `PING` and the command name
`graph.query`, the only call is that of `queryCustomCommand`; with an empty
text, the only call is the `GRAPH.QUERY` call of `queryGraphQuery`. -/
theorem query_single_path_witness :
    (query customExternals sampleRequest (stubClient sampleReply)).calls
      = [{ flat := false, cmd := "queryCustomCommand", args := ["movies"] }] ∧
    (query sampleExternals sampleRequest (stubClient sampleReply)).calls
      = [{ flat := true, cmd := "GRAPH.QUERY",
           args := ["movies", "MATCH (a)-[r]->(b) RETURN a, r, b"] }] ∧
    (query sampleExternals sampleRequest (stubClient sampleReply)).response = sampleResponse :=
  ⟨((query_single_path customExternals sampleRequest (stubClient sampleReply)
      { sampleQuery with Query := "PING" } rfl).1 (by decide)).1,
   (((query_single_path sampleExternals sampleRequest (stubClient sampleReply) sampleQuery
      rfl).2 rfl).1 queryGraphQuery rfl).1,
   by decide⟩

/-- C16: for two graph replies of at least two elements with the same element
at index 1, `queryGraphQuery` returns the same result, frames included: the
header at index 0 and the elements after index 1 play no part. -/
theorem queryGraphQuery_rows_only (qm : queryModel) (client1 client2 : redisClient)
    (result1 result2 : List Reply)
    (hreply1 : client1.RunFlatCmd Rcv.anySlice "GRAPH.QUERY" qm.Key [qm.Cypher]
      = Except.ok result1)
    (hreply2 : client2.RunFlatCmd Rcv.anySlice "GRAPH.QUERY" qm.Key [qm.Cypher]
      = Except.ok result2)
    (hlen1 : 1 < result1.length) (hlen2 : 1 < result2.length)
    (hrows : result1.get ⟨1, hlen1⟩ = result2.get ⟨1, hlen2⟩) :
    (queryGraphQuery qm client1).out = (queryGraphQuery qm client2).out := by
  rw [queryGraphQuery_out qm client1 result1 hreply1,
    queryGraphQuery_out qm client2 result2 hreply2]
  have h1 : result1[1]? = some (result1.get ⟨1, hlen1⟩) := List.getElem?_eq_getElem hlen1
  have h2 : result2[1]? = some (result2.get ⟨1, hlen2⟩) := List.getElem?_eq_getElem hlen2
  simp only [graphFrames, index, h1, h2, hrows]

/-- Witness of C16: the sample reply against the same rows under another
header and followed by a statistics element. -/
theorem queryGraphQuery_rows_only_witness :
    (queryGraphQuery sampleQuery (stubClient sampleReply)).out
      = (queryGraphQuery sampleQuery (stubClient
          [Reply.null, sampleReply.getD 1 Reply.null,
           Reply.arr [Reply.bytes "Query internal execution time: 0.5 milliseconds"]])).out ∧
    (queryGraphQuery sampleQuery (stubClient sampleReply)).out = Except.ok sampleResponse :=
  ⟨queryGraphQuery_rows_only sampleQuery (stubClient sampleReply)
    (stubClient [Reply.null, sampleReply.getD 1 Reply.null,
      Reply.arr [Reply.bytes "Query internal execution time: 0.5 milliseconds"]])
    sampleReply
    [Reply.null, sampleReply.getD 1 Reply.null,
      Reply.arr [Reply.bytes "Query internal execution time: 0.5 milliseconds"]]
    rfl rfl (by decide) (by decide) rfl, by decide⟩

/-! ## The slow log -/

theorem slowlogLoop_frame (parseFloat : String → float64) (entries : List (List String)) :
    ∀ done : List (List String), (∀ e ∈ entries, 4 ≤ e.length) →
      slowlogLoop parseFloat (slowlogFrameOf parseFloat done) entries
        = Except.ok (slowlogFrameOf parseFloat (done ++ entries)) := by
  induction entries with
  | nil => intro done _; simp [slowlogLoop]
  | cons e rest ih =>
    intro done hlen
    have he : 4 ≤ e.length := hlen e (List.mem_cons_self _ _)
    have hrest : ∀ x ∈ rest, 4 ≤ x.length := fun x hx => hlen x (List.mem_cons_of_mem _ hx)
    match e, he with
    | a :: b :: c :: d :: more, _ =>
      have step : (slowlogFrameOf parseFloat done).AppendRow
          [Cell.time (Time.Unix (ParseInt a)), Cell.string b, Cell.string c,
           Cell.float64 (parseFloat d)]
          = Except.ok (slowlogFrameOf parseFloat (done ++ [a :: b :: c :: d :: more])) := by
        simp [slowlogFrameOf, Frame.AppendRow, appendCells, Vector.Append]
      have := ih (done ++ [a :: b :: c :: d :: more]) hrest
      simp only [List.append_assoc, List.singleton_append] at this
      simp [slowlogLoop, indexString, bind, Except.bind, step, this]

/-- C17: for every slow-log reply whose entries each have at least four fields,
`queryGraphSlowlog` returns one frame, "GRAPH.SLOWLOG", with one row per entry
in order: timestamp the instant `ParseInt (field 0)` seconds after the Unix
epoch, command field 1, query field 2, duration `parseFloat (field 3)`, the
duration column carrying the unit "µs". The entry
`["1620000000", "GRAPH.QUERY", "MATCH (n) RETURN n", "1234.5"]` gives one row
whose timestamp reads 2021-05-03T00:00:00Z and whose duration is
`parseFloat "1234.5"`. `ParseInt` reads back the base-10 text of every int64;
as in Go it gives 0 when a character that is not a digit is met first and the
nearest bound of int64 once the digits read are out of range. -/
theorem queryGraphSlowlog_rows (parseFloat : String → float64) (qm : queryModel)
    (client : redisClient) (result : List (List String))
    (hreply : client.RunFlatCmd Rcv.stringSlices "GRAPH.SLOWLOG" qm.Key [] = Except.ok result)
    (hlen : ∀ e ∈ result, 4 ≤ e.length) :
    (queryGraphSlowlog parseFloat qm client).out
      = Except.ok { Frames := [slowlogFrameOf parseFloat result], Error := none } ∧
    (slowlogFrameOf parseFloat result).Rows = result.length ∧
    (slowlogFrameOf parseFloat result).Fields.map (fun f => (f.Name, f.Config))
      = [("timestamp", none), ("command", none), ("query", none),
         ("duration", some { Unit := "µs" })] ∧
    (result = [["1620000000", "GRAPH.QUERY", "MATCH (n) RETURN n", "1234.5"]] →
      (slowlogFrameOf parseFloat result).Fields.map (fun f => f.vector)
        = [Vector.times [Time.Unix 1620000000], Vector.strings ["GRAPH.QUERY"],
           Vector.strings ["MATCH (n) RETURN n"], Vector.float64s [parseFloat "1234.5"]] ∧
      (Time.Unix 1620000000).UTC
        = { year := 2021, month := 5, day := 3, hour := 0, minute := 0, second := 0 }) ∧
    (∀ i : Int, -2 ^ 63 ≤ i → i < 2 ^ 63 → ParseInt (FormatInt i 10) = i) ∧
    ParseInt "12x" = 0 ∧
    ParseInt "100000000000000000000x" = 9223372036854775807 ∧
    ParseInt "-9223372036854775809" = -9223372036854775808 := by
  refine ⟨?_, ?_, rfl, ?_, ParseInt_FormatInt, by decide, by decide, by decide⟩
  · have hl := slowlogLoop_frame parseFloat result [] hlen
    have h0 : slowlogFrameOf parseFloat [] = newFrameSlowlog := rfl
    rw [h0, List.nil_append] at hl
    simp only [queryGraphSlowlog]
    split
    · next err he => rw [hreply] at he; cases he
    · next res he =>
      rw [hreply] at he
      cases he
      simp only [hl, Except.map]
  · simp [slowlogFrameOf, Frame.Rows, Vector.len]
  · intro hres
    subst hres
    refine ⟨?_, by decide⟩
    have : ParseInt "1620000000" = 1620000000 := by decide
    simp [slowlogFrameOf, this]

/-- Witness of C17: the entry of the scenario, with a parser that reads the
text `1234.5` as the double 1234.5. -/
theorem queryGraphSlowlog_rows_witness :
    (queryGraphSlowlog sampleParseFloat sampleQuery
        (slowlogClient [["1620000000", "GRAPH.QUERY", "MATCH (n) RETURN n", "1234.5"]])).out
      = Except.ok { Frames := [slowlogFrameOf sampleParseFloat
          [["1620000000", "GRAPH.QUERY", "MATCH (n) RETURN n", "1234.5"]]], Error := none } ∧
    (slowlogFrameOf sampleParseFloat
        [["1620000000", "GRAPH.QUERY", "MATCH (n) RETURN n", "1234.5"]]).Rows = 1 ∧
    (slowlogFrameOf sampleParseFloat
        [["1620000000", "GRAPH.QUERY", "MATCH (n) RETURN n", "1234.5"]]).Fields.map
          (fun f => f.vector)
      = [Vector.times [Time.Unix 1620000000], Vector.strings ["GRAPH.QUERY"],
         Vector.strings ["MATCH (n) RETURN n"],
         Vector.float64s [{ bits := 0x40934A0000000000 }]] :=
  ⟨(queryGraphSlowlog_rows sampleParseFloat sampleQuery
      (slowlogClient [["1620000000", "GRAPH.QUERY", "MATCH (n) RETURN n", "1234.5"]])
      [["1620000000", "GRAPH.QUERY", "MATCH (n) RETURN n", "1234.5"]] rfl (by decide)).1,
   (queryGraphSlowlog_rows sampleParseFloat sampleQuery
      (slowlogClient [["1620000000", "GRAPH.QUERY", "MATCH (n) RETURN n", "1234.5"]])
      [["1620000000", "GRAPH.QUERY", "MATCH (n) RETURN n", "1234.5"]] rfl (by decide)).2.1,
   by decide⟩

/-! ## Relationship records, scalar entries and odd property values -/

theorem edgeOfFields_pairs (t0 t1 t2 t3 f4 : Reply) (edgeID src dest : Int) (type : String) :
    edgeOfFields [Reply.arr [t0, Reply.int64 edgeID], Reply.arr [t1, Reply.bytes type],
        Reply.arr [t2, Reply.int64 src], Reply.arr [t3, Reply.int64 dest], f4]
      = Except.ok { id := FormatInt edgeID 10, source := FormatInt src 10,
                    target := FormatInt dest 10, mainStat := type } := by
  simp [edgeOfFields, index, Reply.asSlice, Reply.asInt64, Reply.asBytes, bind, Except.bind,
    pure, Except.pure]

theorem findAllNodesAndEdges_single_edge (fields : List Reply) (edge : edgeEntry)
    (h5 : fields.length = 5) (he : edgeOfFields fields = Except.ok edge) :
    findAllNodesAndEdges (Reply.arr [Reply.arr fields]) = Except.ok ([], [edge]) := by
  simp [findAllNodesAndEdges, entriesLoop, entryStep_five _ fields h5, he]

/-- C18: for every 5-field entry whose fields 0 to 3 are pairs `[tag, value]`
with an int64 edge id, a byte-string type, an int64 source and an int64 target,
`findAllNodesAndEdges` yields exactly one edge with id, source and target the
base-10 texts of the integers and mainStat the text of the type, whatever field
4 is; `queryGraphQuery` on the reply holding just that entry writes the edge to
the columns id, source, target, mainStat of the "edges" frame, in that order,
and leaves the "nodes" frame without rows. -/
theorem queryGraphQuery_edge_columns (qm : queryModel) (client : redisClient)
    (header t0 t1 t2 t3 f4 : Reply) (edgeID src dest : Int) (type : String)
    (hreply : client.RunFlatCmd Rcv.anySlice "GRAPH.QUERY" qm.Key [qm.Cypher]
      = Except.ok [header, Reply.arr [Reply.arr [Reply.arr [Reply.arr [t0, Reply.int64 edgeID],
          Reply.arr [t1, Reply.bytes type], Reply.arr [t2, Reply.int64 src],
          Reply.arr [t3, Reply.int64 dest], f4]]]]) :
    (∀ other : Reply,
      findAllNodesAndEdges (Reply.arr [Reply.arr [Reply.arr [t0, Reply.int64 edgeID],
          Reply.arr [t1, Reply.bytes type], Reply.arr [t2, Reply.int64 src],
          Reply.arr [t3, Reply.int64 dest], other]])
        = Except.ok ([], [{ id := FormatInt edgeID 10, source := FormatInt src 10,
                            target := FormatInt dest 10, mainStat := type }])) ∧
    (queryGraphQuery qm client).out = Except.ok
      { Frames := [
          newFrameWithNodes,
          { Name := "edges"
            Meta := some { PreferredVisualization := "nodeGraph" }
            Fields := [
              { Name := "id", Config := none, vector := Vector.strings [FormatInt edgeID 10] },
              { Name := "source", Config := none, vector := Vector.strings [FormatInt src 10] },
              { Name := "target", Config := none, vector := Vector.strings [FormatInt dest 10] },
              { Name := "mainStat", Config := none, vector := Vector.strings [type] }] }]
        Error := none } := by
  have hrow : ∀ other : Reply,
      findAllNodesAndEdges (Reply.arr [Reply.arr [Reply.arr [t0, Reply.int64 edgeID],
          Reply.arr [t1, Reply.bytes type], Reply.arr [t2, Reply.int64 src],
          Reply.arr [t3, Reply.int64 dest], other]])
        = Except.ok ([], [{ id := FormatInt edgeID 10, source := FormatInt src 10,
                            target := FormatInt dest 10, mainStat := type }]) :=
    fun other => findAllNodesAndEdges_single_edge _ _ rfl
      (edgeOfFields_pairs t0 t1 t2 t3 other edgeID src dest type)
  refine ⟨hrow, ?_⟩
  rw [queryGraphQuery_out qm client _ hreply]
  have := graphFrames_of_parts
    [header, Reply.arr [Reply.arr [Reply.arr [Reply.arr [t0, Reply.int64 edgeID],
          Reply.arr [t1, Reply.bytes type], Reply.arr [t2, Reply.int64 src],
          Reply.arr [t3, Reply.int64 dest], f4]]]]
    [Reply.arr [Reply.arr [Reply.arr [t0, Reply.int64 edgeID],
          Reply.arr [t1, Reply.bytes type], Reply.arr [t2, Reply.int64 src],
          Reply.arr [t3, Reply.int64 dest], f4]]]
    [([], [⟨FormatInt edgeID 10, FormatInt src 10, FormatInt dest 10, type⟩])] rfl
    (by simp [hrow f4])
  rw [this]
  simp [allNodes, allEdges, firstOccurrences, nodesFrameOf, edgesFrameOf, newFrameWithNodes]

/-- Witness of C18: relationship 3 of type `wrote` from node 0 to node 1, with a
scalar in field 4. -/
theorem queryGraphQuery_edge_columns_witness :
    (∀ other : Reply,
      findAllNodesAndEdges (Reply.arr [Reply.arr [Reply.arr [Reply.bytes "id", Reply.int64 3],
          Reply.arr [Reply.bytes "type", Reply.bytes "wrote"],
          Reply.arr [Reply.bytes "src_node", Reply.int64 0],
          Reply.arr [Reply.bytes "dest_node", Reply.int64 1], other]])
        = Except.ok ([], [{ id := FormatInt 3 10, source := FormatInt 0 10,
                            target := FormatInt 1 10, mainStat := "wrote" }])) ∧
    (queryGraphQuery sampleQuery (stubClient [Reply.arr [Reply.bytes "r"],
        Reply.arr [Reply.arr [Reply.arr [Reply.arr [Reply.bytes "id", Reply.int64 3],
          Reply.arr [Reply.bytes "type", Reply.bytes "wrote"],
          Reply.arr [Reply.bytes "src_node", Reply.int64 0],
          Reply.arr [Reply.bytes "dest_node", Reply.int64 1], Reply.int64 9]]]])).out
      = Except.ok
      { Frames := [
          newFrameWithNodes,
          { Name := "edges"
            Meta := some { PreferredVisualization := "nodeGraph" }
            Fields := [
              { Name := "id", Config := none, vector := Vector.strings [FormatInt 3 10] },
              { Name := "source", Config := none, vector := Vector.strings [FormatInt 0 10] },
              { Name := "target", Config := none, vector := Vector.strings [FormatInt 1 10] },
              { Name := "mainStat", Config := none, vector := Vector.strings ["wrote"] }] }]
        Error := none } :=
  queryGraphQuery_edge_columns sampleQuery (stubClient [Reply.arr [Reply.bytes "r"],
        Reply.arr [Reply.arr [Reply.arr [Reply.arr [Reply.bytes "id", Reply.int64 3],
          Reply.arr [Reply.bytes "type", Reply.bytes "wrote"],
          Reply.arr [Reply.bytes "src_node", Reply.int64 0],
          Reply.arr [Reply.bytes "dest_node", Reply.int64 1], Reply.int64 9]]]])
    (Reply.arr [Reply.bytes "r"]) (Reply.bytes "id") (Reply.bytes "type")
    (Reply.bytes "src_node") (Reply.bytes "dest_node") (Reply.int64 9) 3 0 1 "wrote" rfl

/-- C19: when some result row of a `graph.query` reply is a sequence holding an
entry that is not a sequence, the step of `findAllNodesAndEdges` on that entry
faults on its type assertion, so the call on that row faults, `query` returns
the empty response and the nodes and edges of all other rows are lost; a result
row that is itself not a sequence yields no node, no edge and no fault. -/
theorem query_scalar_entry (ext : Externals) (q : DataQuery) (client : redisClient)
    (qm : queryModel) (header x : Reply)
    (more before after entriesBefore entriesAfter : List Reply)
    (hparse : ext.Unmarshal q.JSON = Except.ok qm)
    (hq : qm.Query = "") (hc : qm.Command = "graph.query")
    (hreply : client.RunFlatCmd Rcv.anySlice "GRAPH.QUERY" qm.Key [qm.Cypher]
      = Except.ok (header :: Reply.arr (before ++
          Reply.arr (entriesBefore ++ x :: entriesAfter) :: after) :: more))
    (hx : x.isSlice = false) :
    (∀ acc, entryStep acc x = Except.error Fault.typeAssertion) ∧
    (∃ fault, findAllNodesAndEdges (Reply.arr (entriesBefore ++ x :: entriesAfter))
      = Except.error fault) ∧
    (query ext q client).response = emptyResponse ∧
    (∀ row : Reply, row.isSlice = false → findAllNodesAndEdges row = Except.ok ([], [])) := by
  have hstep : ∀ acc, entryStep acc x = Except.error Fault.typeAssertion :=
    fun acc => entryStep_scalar acc x hx
  obtain ⟨fault, hrow⟩ := entriesLoop_fault entriesBefore entriesAfter x
    (fun acc => ⟨_, hstep acc⟩) ([], [])
  refine ⟨hstep, ⟨fault, hrow⟩, ?_, ?_⟩
  · obtain ⟨fault1, hg⟩ := graphFrames_fault_of_row header more before after
      (Reply.arr (entriesBefore ++ x :: entriesAfter)) fault hrow
    have hd := dispatch_graph_query ext (Int.tdiv q.From.UnixNano 1000000)
      (Int.tdiv q.To.UnixNano 1000000) qm client hq hc
    rw [(query_of_dispatch_some ext q client qm _ hparse hd).1,
      queryGraphQuery_out qm client _ hreply, hg]
  · intro row hrow
    cases row <;> simp_all [findAllNodesAndEdges, Reply.isSlice]

/-- Witness of C19: the second row of `scalarReply` holds a node and a projected
name; the whole response is empty, the first row included. -/
theorem query_scalar_entry_witness :
    (query sampleExternals sampleRequest (stubClient scalarReply)).response = emptyResponse ∧
    findAllNodesAndEdges (Reply.bytes "Tom Sawyer") = Except.ok ([], []) :=
  ⟨(query_scalar_entry sampleExternals sampleRequest (stubClient scalarReply) sampleQuery
      (Reply.arr [Reply.bytes "a", Reply.bytes "a.name"]) (Reply.bytes "Tom Sawyer") []
      [Reply.arr [sampleNode 0 "writer" "Mark Twain", sampleEdge 0 "wrote" 0 1]] []
      [sampleNode 1 "book" "Tom Sawyer"] [] rfl rfl rfl rfl rfl).2.2.1,
   (query_scalar_entry sampleExternals sampleRequest (stubClient scalarReply) sampleQuery
      (Reply.arr [Reply.bytes "a", Reply.bytes "a.name"]) (Reply.bytes "Tom Sawyer") []
      [Reply.arr [sampleNode 0 "writer" "Mark Twain", sampleEdge 0 "wrote" 0 1]] []
      [sampleNode 1 "book" "Tom Sawyer"] [] rfl rfl rfl rfl rfl).2.2.2
      (Reply.bytes "Tom Sawyer") rfl⟩

/-- C20: for every node record, otherwise well formed, whose first property is
a pair whose value is neither a byte string nor an int64, `findAllNodesAndEdges`
does not fault and emits the node with an empty mainStat. -/
theorem findAllNodesAndEdges_other_property_value (t0 t1 t2 key v : Reply) (nodeID : Int)
    (labelTexts : List String) (rest : List Reply)
    (hbytes : ∀ b : String, v ≠ Reply.bytes b) (hint : ∀ n : Int, v ≠ Reply.int64 n) :
    findAllNodesAndEdges (Reply.arr [Reply.arr [Reply.arr [t0, Reply.int64 nodeID],
        Reply.arr [t1, Reply.arr (labelTexts.map Reply.bytes)],
        Reply.arr [t2, Reply.arr (Reply.arr [key, v] :: rest)]]])
      = Except.ok ([{ id := FormatInt nodeID 10, title := labelTexts.head?.getD "",
                      subTitle := "", mainStat := "", arc := 1 }], []) := by
  cases v with
  | bytes b => exact absurd rfl (hbytes b)
  | int64 n => exact absurd rfl (hint n)
  | null =>
    cases labelTexts <;>
      simp [findAllNodesAndEdges, entriesLoop, entryStep, nodeOfFields, index, Reply.asSlice,
        Reply.asInt64, Reply.asBytes, bind, Except.bind, pure, Except.pure]
  | str s =>
    cases labelTexts <;>
      simp [findAllNodesAndEdges, entriesLoop, entryStep, nodeOfFields, index, Reply.asSlice,
        Reply.asInt64, Reply.asBytes, bind, Except.bind, pure, Except.pure]
  | arr xs =>
    cases labelTexts <;>
      simp [findAllNodesAndEdges, entriesLoop, entryStep, nodeOfFields, index, Reply.asSlice,
        Reply.asInt64, Reply.asBytes, bind, Except.bind, pure, Except.pure]

/-- Witness of C20: a first property whose value is nil. -/
theorem findAllNodesAndEdges_other_property_value_witness :
    findAllNodesAndEdges (Reply.arr [Reply.arr [Reply.arr [Reply.bytes "id", Reply.int64 4],
        Reply.arr [Reply.bytes "labels", Reply.arr (["book"].map Reply.bytes)],
        Reply.arr [Reply.bytes "properties",
          Reply.arr (Reply.arr [Reply.bytes "isbn", Reply.null] :: [])]]])
      = Except.ok ([{ id := FormatInt 4 10, title := ["book"].head?.getD "",
                      subTitle := "", mainStat := "", arc := 1 }], []) :=
  findAllNodesAndEdges_other_property_value (Reply.bytes "id") (Reply.bytes "labels")
    (Reply.bytes "properties") (Reply.bytes "isbn") Reply.null 4 ["book"] []
    (fun _ h => by cases h) (fun _ h => by cases h)

end RedisDatasource
